import Mathlib

/-!
# Collision predicates, timer and kinematic actor of the SDL lessons

A shallow embedding of the arithmetic core of
`SDL Tutorials/27_collision_detection/Lesson27.cpp`, `GameEngine/Lesson29.cpp` and
`GameEngine/Lesson38.cpp`: the box, circle/circle and circle/box collision detectors,
the `LTimer` class, `Dot::handleEvent` and `Dot::move`; together with the frame counter
of `DataStream::getBuffer` in `GameEngine/Lesson42.cpp` and the alpha key handlers of
`GameEngine/13_alpha_blending/Lesson13.cpp`.

Conventions.
* A C++ `int` is an `Int`: signed overflow is undefined behaviour in C++, so these
  definitions describe the runs on which no `int` operation overflows. The collision
  detectors are also given with 32-bit `int` arithmetic, in the namespaces
  `Lesson27.Int32` and `Lesson29.Int32`: there each `int` operation is reduced to the
  two's-complement range, which is what the compiled lessons compute on overflow.
* A `Uint32` is a `Nat` below `2 ^ 32`; unsigned subtraction wraps modulo `2 ^ 32`.
* `SDL_GetTicks()` is the extra argument `now` of the timer methods that call it.
* A method that mutates `*this` is a function from the old object to the new one.
-/

/-! ## Definitions -/

/-- The fields of `SDL_Rect` read by the collision code: top-left corner, width, height. -/
structure SDL_Rect where
  x : Int
  y : Int
  w : Int
  h : Int
  deriving DecidableEq, Repr

/-- Screen dimension constant `SCREEN_WIDTH` (the same in both lessons). -/
def SCREEN_WIDTH : Int := 640

/-- Screen dimension constant `SCREEN_HEIGHT` (the same in both lessons). -/
def SCREEN_HEIGHT : Int := 480

/-- The number of values of a `Uint32`. -/
def UINT32_SIZE : Nat := 4294967296

/-- The C++ expression `a - b` on two `Uint32` operands: subtraction modulo `2 ^ 32`. -/
def Uint32.sub (a b : Nat) : Nat :=
  (a % UINT32_SIZE + (UINT32_SIZE - b % UINT32_SIZE)) % UINT32_SIZE

/-- The data members of `class LTimer` (textually identical in Lesson27 and Lesson29). -/
structure LTimer where
  mStartTicks : Nat
  mPausedTicks : Nat
  mPaused : Bool
  mStarted : Bool
  deriving DecidableEq, Repr

namespace LTimer

/-- The constructor `LTimer::LTimer()`. -/
def new : LTimer :=
  { mStartTicks := 0, mPausedTicks := 0, mPaused := false, mStarted := false }

/-- The method `LTimer::start()`; `now` is the value returned by `SDL_GetTicks()`. -/
def start (_t : LTimer) (now : Nat) : LTimer :=
  { mStarted := true, mPaused := false, mStartTicks := now, mPausedTicks := 0 }

/-- The method `LTimer::stop()`. -/
def stop (_t : LTimer) : LTimer :=
  { mStarted := false, mPaused := false, mStartTicks := 0, mPausedTicks := 0 }

/-- The method `LTimer::pause()`; `now` is the value returned by `SDL_GetTicks()`. -/
def pause (t : LTimer) (now : Nat) : LTimer :=
  if t.mStarted && !t.mPaused then
    { t with mPaused := true, mPausedTicks := Uint32.sub now t.mStartTicks, mStartTicks := 0 }
  else t

/-- The method `LTimer::unpause()`; `now` is the value returned by `SDL_GetTicks()`. -/
def unpause (t : LTimer) (now : Nat) : LTimer :=
  if t.mStarted && t.mPaused then
    { t with mPaused := false, mStartTicks := Uint32.sub now t.mPausedTicks, mPausedTicks := 0 }
  else t

/-- The method `LTimer::getTicks()`; `now` is the value returned by `SDL_GetTicks()`. -/
def getTicks (t : LTimer) (now : Nat) : Nat :=
  if t.mStarted && t.mPaused then t.mPausedTicks
  else if t.mStarted then Uint32.sub now t.mStartTicks
  else 0

end LTimer

namespace Lesson27

/-- The box collision detector `bool checkCollision(SDL_Rect a, SDL_Rect b)` of Lesson27,
with the four sums taken over the mathematical integers; `Lesson27.Int32.checkCollision`
is the same function with 32-bit sums, and the two agree when the sums fit in `int`. -/
def checkCollision (a b : SDL_Rect) : Bool :=
  let leftA := a.x
  let rightA := a.x + a.w
  let topA := a.y
  let bottomA := a.y + a.h
  let leftB := b.x
  let rightB := b.x + b.w
  let topB := b.y
  let bottomB := b.y + b.h
  if bottomA ≤ topB then false
  else if topA ≥ bottomB then false
  else if rightA ≤ leftB then false
  else if leftA ≥ rightB then false
  else true

/-- The constant `Dot::DOT_WIDTH` of Lesson27. -/
def DOT_WIDTH : Int := 20

/-- The constant `Dot::DOT_HEIGHT` of Lesson27. -/
def DOT_HEIGHT : Int := 20

/-- The constant `Dot::DOT_VEL` of Lesson27. -/
def DOT_VEL : Int := 10

/-- The data members of `class Dot` of Lesson27. -/
structure Dot where
  mPosX : Int
  mPosY : Int
  mVelX : Int
  mVelY : Int
  mCollider : SDL_Rect
  deriving DecidableEq, Repr

/-- The first half of `Dot::move(SDL_Rect& wall)` of Lesson27: the X axis. -/
def Dot.moveX (d : Dot) (wall : SDL_Rect) : Dot :=
  let d1 := { d with mPosX := d.mPosX + d.mVelX }
  let d2 := { d1 with mCollider := { d1.mCollider with x := d1.mPosX } }
  if d2.mPosX < 0 || d2.mPosX + DOT_WIDTH > SCREEN_WIDTH || checkCollision d2.mCollider wall then
    let d3 := { d2 with mPosX := d2.mPosX - d2.mVelX }
    { d3 with mCollider := { d3.mCollider with x := d3.mPosX } }
  else d2

/-- The second half of `Dot::move(SDL_Rect& wall)` of Lesson27: the Y axis. -/
def Dot.moveY (d : Dot) (wall : SDL_Rect) : Dot :=
  let d1 := { d with mPosY := d.mPosY + d.mVelY }
  let d2 := { d1 with mCollider := { d1.mCollider with y := d1.mPosY } }
  if d2.mPosY < 0 || d2.mPosY + DOT_HEIGHT > SCREEN_HEIGHT || checkCollision d2.mCollider wall then
    let d3 := { d2 with mPosY := d2.mPosY - d2.mVelY }
    { d3 with mCollider := { d3.mCollider with y := d3.mPosY } }
  else d2

/-- The method `Dot::move(SDL_Rect& wall)` of Lesson27: the X axis, then the Y axis. -/
def Dot.move (d : Dot) (wall : SDL_Rect) : Dot :=
  Dot.moveY (Dot.moveX d wall) wall

end Lesson27

namespace Lesson29

/-- The circle structure `struct Circle` of Lesson29: centre and radius. -/
structure Circle where
  x : Int
  y : Int
  r : Int
  deriving DecidableEq, Repr

/-- The function `distanceSquared` of Lesson29. The source computes the sum in `int` and
returns it as a `double`; every 32-bit `int` is exactly representable as a `double`, and
the callers compare the result with an `int` promoted to `double`, so the comparison is
the comparison of the two integers. Here the differences, products and sum are taken
over the mathematical integers; `Lesson29.Int32.distanceSquared` takes them in 32-bit
`int`. -/
def distanceSquared (x1 y1 x2 y2 : Int) : Int :=
  let deltaX := x2 - x1
  let deltaY := y2 - y1
  deltaX * deltaX + deltaY * deltaY

/-- The circle/box detector `bool checkCollision(Circle& a, SDL_Rect& b)` of Lesson29, over
the mathematical integers; `Lesson29.Int32.checkCollision_Circle_Rect` is the same
function with 32-bit `int` arithmetic. -/
def checkCollision_Circle_Rect (a : Circle) (b : SDL_Rect) : Bool :=
  let cX := if a.x < b.x then b.x else if a.x > b.x + b.w then b.x + b.w else a.x
  let cY := if a.y < b.y then b.y else if a.y > b.y + b.h then b.y + b.h else a.y
  if distanceSquared a.x a.y cX cY < a.r * a.r then true else false

/-- The circle/circle detector `bool checkCollision(Circle& a, Circle& b)` of Lesson29, over
the mathematical integers; `Lesson29.Int32.checkCollision_Circle_Circle` is the same
function with 32-bit `int` arithmetic. -/
def checkCollision_Circle_Circle (a b : Circle) : Bool :=
  let totalRadiusSquared := a.r + b.r
  let totalRadiusSquared := totalRadiusSquared * totalRadiusSquared
  if distanceSquared a.x a.y b.x b.y < totalRadiusSquared then true else false

/-- The constant `Dot::DOT_WIDTH` of Lesson29. -/
def DOT_WIDTH : Int := 20

/-- The constant `Dot::DOT_HEIGHT` of Lesson29. -/
def DOT_HEIGHT : Int := 20

/-- The constant `Dot::DOT_VEL` of Lesson29. -/
def DOT_VEL : Int := 1

/-- The data members of `class Dot` of Lesson29. -/
structure Dot where
  mPosX : Int
  mPosY : Int
  mVelX : Int
  mVelY : Int
  mCollider : Circle
  deriving DecidableEq, Repr

/-- The method `Dot::shiftColliders()` of Lesson29. -/
def Dot.shiftColliders (d : Dot) : Dot :=
  { d with mCollider := { d.mCollider with y := d.mPosY, x := d.mPosX } }

/-- The constructor `Dot::Dot(int x, int y)` of Lesson29. -/
def Dot.new (x y : Int) : Dot :=
  Dot.shiftColliders
    { mPosX := x, mPosY := y, mVelX := 0, mVelY := 0,
      mCollider := { x := 0, y := 0, r := DOT_WIDTH / 2 } }

/-- The first half of `Dot::move(SDL_Rect& square, Circle& circle)` of Lesson29: the X axis.
The first operand of the condition is written `(mPosX = mCollider.r <0)` in the source:
`<` binds tighter than `=`, so it assigns the truth value of `mCollider.r < 0` (1 or 0) to
`mPosX` and yields that value. It is the leftmost operand of `||`, hence always
evaluated; the other operands have no side effect. -/
def Dot.moveX (d : Dot) (square : SDL_Rect) (circle : Circle) : Dot :=
  let d1 := { d with mPosX := d.mPosX + d.mVelX }
  let d2 := Dot.shiftColliders d1
  let d3 := { d2 with mPosX := if d2.mCollider.r < 0 then 1 else 0 }
  if d3.mPosX ≠ 0 || d3.mPosX + d3.mCollider.r > SCREEN_WIDTH
      || checkCollision_Circle_Rect d3.mCollider square
      || checkCollision_Circle_Circle d3.mCollider circle then
    Dot.shiftColliders { d3 with mPosX := d3.mPosX - d3.mVelX }
  else d3

/-- The second half of `Dot::move(SDL_Rect& square, Circle& circle)` of Lesson29: the Y axis. -/
def Dot.moveY (d : Dot) (square : SDL_Rect) (circle : Circle) : Dot :=
  let d1 := { d with mPosY := d.mPosY + d.mVelY }
  let d2 := Dot.shiftColliders d1
  if d2.mPosY - d2.mCollider.r < 0 || d2.mPosY + d2.mCollider.r > SCREEN_HEIGHT
      || checkCollision_Circle_Rect d2.mCollider square
      || checkCollision_Circle_Circle d2.mCollider circle then
    Dot.shiftColliders { d2 with mPosY := d2.mPosY - d2.mVelY }
  else d2

/-- The method `Dot::move(SDL_Rect& square, Circle& circle)` of Lesson29. -/
def Dot.move (d : Dot) (square : SDL_Rect) (circle : Circle) : Dot :=
  Dot.moveY (Dot.moveX d square circle) square circle

/-- The wall rectangle that `main` of Lesson29 passes to `Dot::move`. -/
def mainWall : SDL_Rect := { x := 300, y := 40, w := 40, h := 400 }

/-- The moving dot that `main` of Lesson29 creates: `Dot dot(SCREEN_WIDTH/2, SCREEN_HEIGHT/2)`. -/
def mainDot : Dot := Dot.new (SCREEN_WIDTH / 2) (SCREEN_HEIGHT / 2)

/-- The other dot that `main` of Lesson29 creates:
`Dot otherDot(SCREEN_WIDTH / 4, SCREEN_HEIGHT / 4)`. -/
def mainOtherDot : Dot := Dot.new (SCREEN_WIDTH / 4) (SCREEN_HEIGHT / 4)

end Lesson29

/-! ### Input events -/

/-- Modelled from the spec: the SDL header declaring the enumeration `SDL_EventType` is not
among the sources. The event source tags each event with a kind; `Dot::handleEvent`
distinguishes key-down, key-up and everything else. -/
inductive SDL_EventType where
  | SDL_KEYDOWN
  | SDL_KEYUP
  | other
  deriving DecidableEq, Repr

/-- Modelled from the spec: the SDL header declaring the key symbols is not among the
sources. `Dot::handleEvent` distinguishes the four direction keys and everything else. -/
inductive SDL_Keycode where
  | SDLK_UP
  | SDLK_DOWN
  | SDLK_LEFT
  | SDLK_RIGHT
  | other
  deriving DecidableEq, Repr

/-- The field of `SDL_Keysym` read by `Dot::handleEvent`: the key symbol `sym`. -/
structure SDL_Keysym where
  sym : SDL_Keycode
  deriving DecidableEq, Repr

/-- The fields of `SDL_KeyboardEvent` read by `Dot::handleEvent`: the `Uint8` flag `repeat`
(named `repeat_` here) and `keysym`. -/
structure SDL_KeyboardEvent where
  repeat_ : Nat
  keysym : SDL_Keysym
  deriving DecidableEq, Repr

/-- The fields of `SDL_Event` read by `Dot::handleEvent`: `type` and the member `key`. -/
structure SDL_Event where
  type : SDL_EventType
  key : SDL_KeyboardEvent
  deriving DecidableEq, Repr

/-- The key-down event of key `k` with repeat flag `r`. -/
def keyDown (r : Nat) (k : SDL_Keycode) : SDL_Event :=
  { type := SDL_EventType.SDL_KEYDOWN, key := { repeat_ := r, keysym := { sym := k } } }

/-- The key-up event of key `k` with repeat flag `r`. -/
def keyUp (r : Nat) (k : SDL_Keycode) : SDL_Event :=
  { type := SDL_EventType.SDL_KEYUP, key := { repeat_ := r, keysym := { sym := k } } }

namespace Lesson27

/-- The method `Dot::handleEvent(SDL_Event& e)` of Lesson27. -/
def Dot.handleEvent (d : Dot) (e : SDL_Event) : Dot :=
  if e.type = SDL_EventType.SDL_KEYDOWN ∧ e.key.repeat_ = 0 then
    match e.key.keysym.sym with
    | SDL_Keycode.SDLK_UP => { d with mVelY := d.mVelY - DOT_VEL }
    | SDL_Keycode.SDLK_DOWN => { d with mVelY := d.mVelY + DOT_VEL }
    | SDL_Keycode.SDLK_LEFT => { d with mVelX := d.mVelX - DOT_VEL }
    | SDL_Keycode.SDLK_RIGHT => { d with mVelX := d.mVelX + DOT_VEL }
    | SDL_Keycode.other => d
  else if e.type = SDL_EventType.SDL_KEYUP ∧ e.key.repeat_ = 0 then
    match e.key.keysym.sym with
    | SDL_Keycode.SDLK_UP => { d with mVelY := d.mVelY + DOT_VEL }
    | SDL_Keycode.SDLK_DOWN => { d with mVelY := d.mVelY - DOT_VEL }
    | SDL_Keycode.SDLK_LEFT => { d with mVelX := d.mVelX + DOT_VEL }
    | SDL_Keycode.SDLK_RIGHT => { d with mVelX := d.mVelX - DOT_VEL }
    | SDL_Keycode.other => d
  else d

/-- The wall rectangle that `main` of Lesson27 passes to `Dot::move`. -/
def mainWall : SDL_Rect := { x := 300, y := 40, w := 40, h := 400 }

end Lesson27

namespace Lesson29

/-- The method `Dot::handleEvent(SDL_Event& e)` of Lesson29. -/
def Dot.handleEvent (d : Dot) (e : SDL_Event) : Dot :=
  if e.type = SDL_EventType.SDL_KEYDOWN ∧ e.key.repeat_ = 0 then
    match e.key.keysym.sym with
    | SDL_Keycode.SDLK_UP => { d with mVelY := d.mVelY - DOT_VEL }
    | SDL_Keycode.SDLK_DOWN => { d with mVelY := d.mVelY + DOT_VEL }
    | SDL_Keycode.SDLK_LEFT => { d with mVelX := d.mVelX - DOT_VEL }
    | SDL_Keycode.SDLK_RIGHT => { d with mVelX := d.mVelX + DOT_VEL }
    | SDL_Keycode.other => d
  else if e.type = SDL_EventType.SDL_KEYUP ∧ e.key.repeat_ = 0 then
    match e.key.keysym.sym with
    | SDL_Keycode.SDLK_UP => { d with mVelY := d.mVelY + DOT_VEL }
    | SDL_Keycode.SDLK_DOWN => { d with mVelY := d.mVelY - DOT_VEL }
    | SDL_Keycode.SDLK_LEFT => { d with mVelX := d.mVelX + DOT_VEL }
    | SDL_Keycode.SDLK_RIGHT => { d with mVelX := d.mVelX - DOT_VEL }
    | SDL_Keycode.other => d
  else d

end Lesson29

namespace Lesson38

/-- The constant `Dot::DOT_WIDTH` of Lesson38. -/
def DOT_WIDTH : Int := 20

/-- The constant `Dot::DOT_HEIGHT` of Lesson38. -/
def DOT_HEIGHT : Int := 20

/-- The constant `Dot::DOT_VEL` of Lesson38. -/
def DOT_VEL : Int := 10

/-- The data members of `class Dot` of Lesson38 that `Dot::move` and `Dot::handleEvent`
read and write. The array `particles` is left out: neither method touches it. -/
structure Dot where
  mPosX : Int
  mPosY : Int
  mVelX : Int
  mVelY : Int
  deriving DecidableEq, Repr

/-- The method `Dot::move()` of Lesson38: the X axis, then the Y axis. -/
def Dot.move (d : Dot) : Dot :=
  let d1 := { d with mPosX := d.mPosX + d.mVelX }
  let d2 :=
    if d1.mPosX < 0 || d1.mPosX + DOT_WIDTH > SCREEN_WIDTH then
      { d1 with mPosX := d1.mPosX - d1.mVelX }
    else d1
  let d3 := { d2 with mPosY := d2.mPosY + d2.mVelY }
  if d3.mPosY < 0 || d3.mPosY + DOT_HEIGHT > SCREEN_HEIGHT then
    { d3 with mPosY := d3.mPosY - d3.mVelY }
  else d3

end Lesson38

/-! ### Timer traces -/

/-- One call of a state-changing method of `LTimer`; `start`, `pause` and `unpause` carry the
value that `SDL_GetTicks()` returns during the call. -/
inductive LTimer.Op where
  | start (now : Nat)
  | stop
  | pause (now : Nat)
  | unpause (now : Nat)
  deriving DecidableEq, Repr

/-- The timer after one method call. -/
def LTimer.step (t : LTimer) : LTimer.Op → LTimer
  | LTimer.Op.start now => LTimer.start t now
  | LTimer.Op.stop => LTimer.stop t
  | LTimer.Op.pause now => LTimer.pause t now
  | LTimer.Op.unpause now => LTimer.unpause t now

/-- The timer reached from the constructor by a sequence of method calls. -/
def LTimer.run (ops : List LTimer.Op) : LTimer :=
  ops.foldl LTimer.step LTimer.new

/-! ### Further members of the lessons -/

/-- The method `LTimer::isStarted()`. -/
def LTimer.isStarted (t : LTimer) : Bool := t.mStarted

/-- The method `LTimer::isPaused()`. -/
def LTimer.isPaused (t : LTimer) : Bool := t.mPaused && t.mStarted

/-- The constructor `Dot::Dot()` of Lesson27. It sets the position, the velocity and the
collider's `w` and `h`, and leaves the collider's `x` and `y` uninitialised: `cx` and `cy`
stand for whatever values they hold. -/
def Lesson27.Dot.new (cx cy : Int) : Lesson27.Dot :=
  { mPosX := 0, mPosY := 0, mVelX := 0, mVelY := 0,
    mCollider := { x := cx, y := cy, w := Lesson27.DOT_WIDTH, h := Lesson27.DOT_HEIGHT } }

namespace Lesson42

/-- The data members of `class DataStream` of Lesson42 that `getBuffer` reads and writes.
The array `mImages` of four surface pointers is left out; what matters of it here is the
index used to read it. -/
structure DataStream where
  mCurrentImage : Int
  mDelayFrames : Int
  deriving DecidableEq, Repr

/-- The constructor `DataStream::DataStream()`. -/
def DataStream.new : DataStream := { mCurrentImage := 0, mDelayFrames := 4 }

/-- The method `DataStream::getBuffer()`: the state it leaves, and the index with which it
reads `mImages` for its result. -/
def DataStream.getBuffer (s : DataStream) : DataStream × Int :=
  let s1 := { s with mDelayFrames := s.mDelayFrames - 1 }
  let s2 :=
    if s1.mDelayFrames = 0 then
      { s1 with mCurrentImage := s1.mCurrentImage + 1, mDelayFrames := 4 }
    else s1
  let s3 := if s2.mCurrentImage = 4 then { s2 with mCurrentImage := 0 } else s2
  (s3, s3.mCurrentImage)

/-- The state after `n` calls of `getBuffer()` on the constructed `DataStream`. -/
def DataStream.after : Nat → DataStream
  | 0 => DataStream.new
  | n + 1 => (DataStream.getBuffer (DataStream.after n)).1

/-- The index with which the `n`-th call (`n >= 1`) of `getBuffer()` reads `mImages`. -/
def DataStream.imageOfCall (n : Nat) : Int :=
  (DataStream.getBuffer (DataStream.after (n - 1))).2

end Lesson42

namespace Lesson13

/-- The number of values of a `Uint8`. -/
def UINT8_SIZE : Int := 256

/-- The branch `case SDLK_w:` of the event loop of `main` in Lesson13, on the `Uint8`
variable `a`: the operands are promoted to `int` for the test, and the result of `a += 32`
is stored back modulo 256. -/
def alphaOnW (a : Nat) : Nat :=
  if (a : Int) + 32 > 255 then 255 else (((a : Int) + 32) % UINT8_SIZE).toNat

/-- The branch `case SDLK_s:` of the event loop of `main` in Lesson13, on the `Uint8`
variable `a`: the operands are promoted to `int` for the test, and the result of `a -= 32`
is stored back modulo 256. -/
def alphaOnS (a : Nat) : Nat :=
  if (a : Int) - 32 < 0 then 0 else (((a : Int) - 32) % UINT8_SIZE).toNat

end Lesson13

/-! ### The detectors with 32-bit `int` arithmetic -/

/-- The least value of a 32-bit `int`. -/
def INT_MIN : Int := -2147483648

/-- The greatest value of a 32-bit `int`. -/
def INT_MAX : Int := 2147483647

/-- The integer is a value of a 32-bit `int`. -/
def InInt (z : Int) : Prop := INT_MIN ≤ z ∧ z ≤ INT_MAX

instance (z : Int) : Decidable (InInt z) := by
  unfold InInt; infer_instance

/-- The value a 32-bit `int` holds for the mathematical result `z` of an operation: `z`
itself when it is in range, and `z` reduced modulo `2 ^ 32` into the two's-complement range
otherwise. The C++ standard leaves signed overflow undefined; the reduction is what the
compiled lessons compute. -/
def wrapInt (z : Int) : Int := (z + 2147483648) % 4294967296 - 2147483648

namespace Lesson27.Int32

/-- The box collision detector `bool checkCollision(SDL_Rect a, SDL_Rect b)` of Lesson27
with its four sums in 32-bit `int`. -/
def checkCollision (a b : SDL_Rect) : Bool :=
  let leftA := a.x
  let rightA := wrapInt (a.x + a.w)
  let topA := a.y
  let bottomA := wrapInt (a.y + a.h)
  let leftB := b.x
  let rightB := wrapInt (b.x + b.w)
  let topB := b.y
  let bottomB := wrapInt (b.y + b.h)
  if bottomA ≤ topB then false
  else if topA ≥ bottomB then false
  else if rightA ≤ leftB then false
  else if leftA ≥ rightB then false
  else true

end Lesson27.Int32

namespace Lesson29.Int32

/-- The function `distanceSquared` of Lesson29 with its differences, products and sum in
32-bit `int`; the conversion of the `int` result to `double` is exact. -/
def distanceSquared (x1 y1 x2 y2 : Int) : Int :=
  let deltaX := wrapInt (x2 - x1)
  let deltaY := wrapInt (y2 - y1)
  wrapInt (wrapInt (deltaX * deltaX) + wrapInt (deltaY * deltaY))

/-- The circle/box detector `bool checkCollision(Circle& a, SDL_Rect& b)` of Lesson29 with
32-bit `int` arithmetic. -/
def checkCollision_Circle_Rect (a : Circle) (b : SDL_Rect) : Bool :=
  let cX :=
    if a.x < b.x then b.x
    else if a.x > wrapInt (b.x + b.w) then wrapInt (b.x + b.w) else a.x
  let cY :=
    if a.y < b.y then b.y
    else if a.y > wrapInt (b.y + b.h) then wrapInt (b.y + b.h) else a.y
  if distanceSquared a.x a.y cX cY < wrapInt (a.r * a.r) then true else false

/-- The circle/circle detector `bool checkCollision(Circle& a, Circle& b)` of Lesson29 with
32-bit `int` arithmetic. -/
def checkCollision_Circle_Circle (a b : Circle) : Bool :=
  let totalRadiusSquared := wrapInt (a.r + b.r)
  let totalRadiusSquared := wrapInt (totalRadiusSquared * totalRadiusSquared)
  if distanceSquared a.x a.y b.x b.y < totalRadiusSquared then true else false

end Lesson29.Int32

/-! ### Specification-side notions -/

/-- The open interiors of two rectangles share a point with rational coordinates. -/
def interiorsIntersect (a b : SDL_Rect) : Prop :=
  ∃ px py : ℚ,
    ((a.x : ℚ) < px ∧ px < (a.x : ℚ) + a.w) ∧ ((a.y : ℚ) < py ∧ py < (a.y : ℚ) + a.h) ∧
    ((b.x : ℚ) < px ∧ px < (b.x : ℚ) + b.w) ∧ ((b.y : ℚ) < py ∧ py < (b.y : ℚ) + b.h)

/-- The value `v` clamped to the interval `[lo, hi]`. -/
def clamp (v lo hi : Int) : Int := max lo (min v hi)

/-- The circle's centre lies inside the rectangle, borders included. -/
def centreInside (c : Lesson29.Circle) (r : SDL_Rect) : Prop :=
  (r.x ≤ c.x ∧ c.x ≤ r.x + r.w) ∧ (r.y ≤ c.y ∧ c.y ≤ r.y + r.h)

instance (c : Lesson29.Circle) (r : SDL_Rect) : Decidable (centreInside c r) := by
  unfold centreInside; infer_instance

/-- The rectangle's fields are 32-bit `int` values, and so are its right side `x + w` and its
bottom side `y + h`: the box detector computes its sides without overflow. -/
def sidesFit (r : SDL_Rect) : Prop :=
  (InInt r.x ∧ InInt r.y ∧ InInt r.w ∧ InInt r.h) ∧ InInt (r.x + r.w) ∧ InInt (r.y + r.h)

instance (r : SDL_Rect) : Decidable (sidesFit r) := by
  unfold sidesFit; infer_instance

/-- No `int` operation of the circle/box detector overflows on `c` and `r`: the fields are
32-bit `int` values, and so are the sides `r.x + r.w` and `r.y + r.h`, the squared radius
`c.r * c.r` and the squared distance from the centre to the centre clamped to the box. -/
def noOverflow (c : Lesson29.Circle) (r : SDL_Rect) : Prop :=
  sidesFit r ∧ (InInt c.x ∧ InInt c.y ∧ InInt c.r) ∧ InInt (c.r * c.r) ∧
    InInt ((c.x - clamp c.x r.x (r.x + r.w)) ^ 2 + (c.y - clamp c.y r.y (r.y + r.h)) ^ 2)

instance (c : Lesson29.Circle) (r : SDL_Rect) : Decidable (noOverflow c r) := by
  unfold noOverflow; infer_instance

/-- Resolving the Y axis first and then the X axis, each with the per-axis rule of
`Dot::move` of Lesson27: the order the source does not use. -/
def Lesson27.Dot.moveYthenX (d : Lesson27.Dot) (wall : SDL_Rect) : Lesson27.Dot :=
  Lesson27.Dot.moveX (Lesson27.Dot.moveY d wall) wall

/-- Which of the four direction keys are currently held down. -/
structure KeysHeld where
  up : Bool
  down : Bool
  left : Bool
  right : Bool
  deriving DecidableEq, Repr

/-- No direction key is held. -/
def KeysHeld.none : KeysHeld := { up := false, down := false, left := false, right := false }

/-- Whether key `k` is held; a key that is no direction key never counts as held. -/
def KeysHeld.get (h : KeysHeld) : SDL_Keycode → Bool
  | SDL_Keycode.SDLK_UP => h.up
  | SDL_Keycode.SDLK_DOWN => h.down
  | SDL_Keycode.SDLK_LEFT => h.left
  | SDL_Keycode.SDLK_RIGHT => h.right
  | SDL_Keycode.other => false

/-- Record that key `k` is held (`b = true`) or released (`b = false`). -/
def KeysHeld.set (h : KeysHeld) (k : SDL_Keycode) (b : Bool) : KeysHeld :=
  match k with
  | SDL_Keycode.SDLK_UP => { h with up := b }
  | SDL_Keycode.SDLK_DOWN => { h with down := b }
  | SDL_Keycode.SDLK_LEFT => { h with left := b }
  | SDL_Keycode.SDLK_RIGHT => { h with right := b }
  | SDL_Keycode.other => h

/-- The event is a non-repeat key-down or key-up of a direction key. -/
def isDirectionKeyEvent (e : SDL_Event) : Bool :=
  (e.type = SDL_EventType.SDL_KEYDOWN || e.type = SDL_EventType.SDL_KEYUP)
    && e.key.repeat_ = 0 && e.key.keysym.sym ≠ SDL_Keycode.other

/-- The event keeps the alternation: a non-repeat key-down of a direction key must find the
key released, a non-repeat key-up must find it held; every other event is free. -/
def KeysHeld.accepts (h : KeysHeld) (e : SDL_Event) : Bool :=
  if isDirectionKeyEvent e then
    if e.type = SDL_EventType.SDL_KEYDOWN then !h.get e.key.keysym.sym
    else h.get e.key.keysym.sym
  else true

/-- The keys held after the event. -/
def KeysHeld.next (h : KeysHeld) (e : SDL_Event) : KeysHeld :=
  if isDirectionKeyEvent e then
    h.set e.key.keysym.sym (e.type = SDL_EventType.SDL_KEYDOWN)
  else h

/-- Starting with the keys `h` held, in the sequence of events the non-repeat key-down and
key-up events of each direction key alternate; with `h = KeysHeld.none` each key begins
with a key-down. Repeat events and all other events are interleaved freely. -/
def alternatesFrom (h : KeysHeld) : List SDL_Event → Bool
  | [] => true
  | e :: es => h.accepts e && alternatesFrom (h.next e) es

/-- The number 1 for a held key and 0 for a released one. -/
def heldAsInt (b : Bool) : Int := if b then 1 else 0

/-! ## Theorems -/

/-! ### The box detector of Lesson27 -/

/-- The box detector returns true exactly when none of its four early returns fires. -/
theorem Lesson27.checkCollision_eq_true_iff (a b : SDL_Rect) :
    Lesson27.checkCollision a b = true ↔
      (b.y < a.y + a.h ∧ a.y < b.y + b.h ∧ b.x < a.x + a.w ∧ a.x < b.x + b.w) := by
  unfold Lesson27.checkCollision
  simp only []
  split_ifs <;> simp <;> omega

/-- C1: the box detector of Lesson27 returns false exactly when one of the four
separating conditions `a.y + a.h <= b.y`, `a.y >= b.y + b.h`, `a.x + a.w <= b.x`,
`a.x >= b.x + b.w` holds, and true in every other case. -/
theorem Lesson27.checkCollision_separating_axis (a b : SDL_Rect) :
    (Lesson27.checkCollision a b = false ↔
      (a.y + a.h ≤ b.y ∨ a.y ≥ b.y + b.h ∨ a.x + a.w ≤ b.x ∨ a.x ≥ b.x + b.w)) ∧
    (Lesson27.checkCollision a b = true ↔
      ¬ (a.y + a.h ≤ b.y ∨ a.y ≥ b.y + b.h ∨ a.x + a.w ≤ b.x ∨ a.x ≥ b.x + b.w)) := by
  have key := Lesson27.checkCollision_eq_true_iff a b
  constructor
  · rw [← Bool.not_eq_true, key]
    omega
  · rw [key]
    omega

/-- Interiors that intersect are never separated: the detector returns true, whatever
the signs of the widths and heights. -/
theorem Lesson27.checkCollision_of_interiorsIntersect (a b : SDL_Rect)
    (h : interiorsIntersect a b) : Lesson27.checkCollision a b = true := by
  obtain ⟨px, py, ⟨hax, hax2⟩, ⟨hay, hay2⟩, ⟨hbx, hbx2⟩, ⟨hby, hby2⟩⟩ := h
  have h1 : (b.y : ℚ) < (a.y : ℚ) + a.h := lt_trans hby hay2
  have h2 : (a.y : ℚ) < (b.y : ℚ) + b.h := lt_trans hay hby2
  have h3 : (b.x : ℚ) < (a.x : ℚ) + a.w := lt_trans hbx hax2
  have h4 : (a.x : ℚ) < (b.x : ℚ) + b.w := lt_trans hax hbx2
  have h1i : b.y < a.y + a.h := by exact_mod_cast h1
  have h2i : a.y < b.y + b.h := by exact_mod_cast h2
  have h3i : b.x < a.x + a.w := by exact_mod_cast h3
  have h4i : a.x < b.x + b.w := by exact_mod_cast h4
  exact (Lesson27.checkCollision_eq_true_iff a b).2 ⟨h1i, h2i, h3i, h4i⟩

/-- Two overlapping non-empty open intervals with integer end points share a rational point. -/
theorem open_intervals_meet (l1 r1 l2 r2 : Int) (h1 : l1 < r1) (h2 : l2 < r2)
    (h12 : l1 < r2) (h21 : l2 < r1) :
    ∃ p : ℚ, ((l1 : ℚ) < p ∧ p < (r1 : ℚ)) ∧ ((l2 : ℚ) < p ∧ p < (r2 : ℚ)) := by
  have q1 : (l1 : ℚ) < r1 := by exact_mod_cast h1
  have q2 : (l2 : ℚ) < r2 := by exact_mod_cast h2
  have q12 : (l1 : ℚ) < r2 := by exact_mod_cast h12
  have q21 : (l2 : ℚ) < r1 := by exact_mod_cast h21
  refine ⟨(max (l1 : ℚ) l2 + min (r1 : ℚ) r2) / 2, ⟨?_, ?_⟩, ⟨?_, ?_⟩⟩
  · have hmax : (l1 : ℚ) ≤ max (l1 : ℚ) l2 := le_max_left _ _
    have hlt : (l1 : ℚ) < min (r1 : ℚ) r2 := lt_min q1 q12
    linarith
  · have hmin : min (r1 : ℚ) r2 ≤ r1 := min_le_left _ _
    have hlt : max (l1 : ℚ) l2 < r1 := max_lt q1 q21
    linarith
  · have hmax : (l2 : ℚ) ≤ max (l1 : ℚ) l2 := le_max_right _ _
    have hlt : (l2 : ℚ) < min (r1 : ℚ) r2 := lt_min q21 q2
    linarith
  · have hmin : min (r1 : ℚ) r2 ≤ r2 := min_le_right _ _
    have hlt : max (l1 : ℚ) l2 < r2 := max_lt q12 q2
    linarith

/-- Over the mathematical integers: for rectangles of positive width and height, the box
detector returns true if and only if the open interiors of the two rectangles share a
point with rational coordinates. -/
theorem Lesson27.checkCollision_model_iff_interiorsIntersect (a b : SDL_Rect)
    (haw : 0 < a.w) (hah : 0 < a.h) (hbw : 0 < b.w) (hbh : 0 < b.h) :
    Lesson27.checkCollision a b = true ↔ interiorsIntersect a b := by
  constructor
  · intro hc
    obtain ⟨c1, c2, c3, c4⟩ := (Lesson27.checkCollision_eq_true_iff a b).1 hc
    obtain ⟨px, hpx1, hpx2⟩ := open_intervals_meet a.x (a.x + a.w) b.x (b.x + b.w)
      (by omega) (by omega) c4 c3
    obtain ⟨py, hpy1, hpy2⟩ := open_intervals_meet a.y (a.y + a.h) b.y (b.y + b.h)
      (by omega) (by omega) c2 c1
    push_cast at hpx1 hpx2 hpy1 hpy2
    exact ⟨px, py, hpx1, hpy1, hpx2, hpy2⟩
  · exact Lesson27.checkCollision_of_interiorsIntersect a b

/-! ### The circle detectors of Lesson29 -/

/-- The source's three-way branch for the closest coordinate is the clamp to `[lo, lo + len]`
when the length `len` is not negative. -/
theorem closest_eq_clamp (v lo len : Int) (hlen : 0 ≤ len) :
    (if v < lo then lo else if v > lo + len then lo + len else v) = clamp v lo (lo + len) := by
  unfold clamp
  split_ifs with h1 h2
  · rw [min_eq_left (by omega), max_eq_left (by omega)]
  · rw [min_eq_right (by omega), max_eq_right (by omega)]
  · rw [min_eq_left (by omega), max_eq_right (by omega)]

/-- C3: the circle/circle detector of Lesson29 returns true if and only if the squared
distance of the centres is less than the square of the sum of the radii; in particular
two circles of radius 5 whose centres are closer than 10 apart collide. -/
theorem Lesson29.checkCollision_Circle_Circle_iff (a b : Lesson29.Circle) :
    (Lesson29.checkCollision_Circle_Circle a b = true ↔
      (b.x - a.x) ^ 2 + (b.y - a.y) ^ 2 < (a.r + b.r) ^ 2) ∧
    (a.r = 5 → b.r = 5 → (b.x - a.x) ^ 2 + (b.y - a.y) ^ 2 < 10 ^ 2 →
      Lesson29.checkCollision_Circle_Circle a b = true) := by
  have key : Lesson29.checkCollision_Circle_Circle a b = true ↔
      (b.x - a.x) ^ 2 + (b.y - a.y) ^ 2 < (a.r + b.r) ^ 2 := by
    unfold Lesson29.checkCollision_Circle_Circle Lesson29.distanceSquared
    simp only [pow_two]
    split_ifs with h <;> simp [h]
  refine ⟨key, fun ha hb hd => key.2 ?_⟩
  rw [ha, hb]
  exact hd

/-- Over the mathematical integers: for a rectangle with `w >= 0` and `h >= 0`, the
circle/box detector returns true if and only if the squared distance from the centre to
the centre clamped, axis by axis, to the rectangle is less than the squared radius. -/
theorem Lesson29.checkCollision_Circle_Rect_model_iff (c : Lesson29.Circle) (r : SDL_Rect)
    (hw : 0 ≤ r.w) (hh : 0 ≤ r.h) :
    Lesson29.checkCollision_Circle_Rect c r = true ↔
      (c.x - clamp c.x r.x (r.x + r.w)) ^ 2 + (c.y - clamp c.y r.y (r.y + r.h)) ^ 2
        < c.r ^ 2 := by
  unfold Lesson29.checkCollision_Circle_Rect Lesson29.distanceSquared
  simp only [closest_eq_clamp c.x r.x r.w hw, closest_eq_clamp c.y r.y r.h hh]
  have e : ∀ u v : Int, (u - v) * (u - v) = (v - u) ^ 2 := fun u v => by ring
  simp only [e, pow_two c.r]
  split_ifs with h <;> simp [h]

/-- Over the mathematical integers: when the centre of the circle lies inside the rectangle
and the radius is positive, the circle/box detector returns true. -/
theorem Lesson29.checkCollision_Circle_Rect_model_centre_inside (c : Lesson29.Circle) (r : SDL_Rect)
    (hr : 0 < c.r) (hin : centreInside c r) :
    Lesson29.checkCollision_Circle_Rect c r = true := by
  obtain ⟨⟨hx1, hx2⟩, ⟨hy1, hy2⟩⟩ := hin
  unfold Lesson29.checkCollision_Circle_Rect Lesson29.distanceSquared
  have ex : (if c.x < r.x then r.x else if c.x > r.x + r.w then r.x + r.w else c.x) = c.x := by
    split_ifs <;> omega
  have ey : (if c.y < r.y then r.y else if c.y > r.y + r.h then r.y + r.h else c.y) = c.y := by
    split_ifs <;> omega
  simp only [ex, ey, sub_self, mul_zero, add_zero]
  have hpos : 0 < c.r * c.r := Int.mul_pos hr hr
  simp [hpos]

/-! ### The timer -/

/-- On operands that are `Uint32` values in the right order, the wrapping subtraction is
the ordinary one. -/
theorem Uint32.sub_eq_of_le (a b : Nat) (hba : b ≤ a) (ha : a < UINT32_SIZE) :
    Uint32.sub a b = a - b := by
  unfold Uint32.sub
  unfold UINT32_SIZE at *
  omega

/-- The wrapping subtraction is the integer difference reduced modulo `2 ^ 32`. -/
theorem Uint32.sub_eq_emod (a b : Nat) :
    (Uint32.sub a b : Int) = ((a : Int) - (b : Int)) % 4294967296 := by
  unfold Uint32.sub UINT32_SIZE
  omega

/-- C6: for ticks `t0 <= t1 <= t2 <= t3` of the 32-bit tick source, a timer started at
`t0`, paused at `t1` and unpaused at `t2` reports `(t1 - t0) + (t3 - t2)` at `t3`: the
paused interval is excluded. -/
theorem LTimer.getTicks_start_pause_unpause (T : LTimer) (t0 t1 t2 t3 : Nat)
    (h01 : t0 ≤ t1) (h12 : t1 ≤ t2) (h23 : t2 ≤ t3) (h3 : t3 < UINT32_SIZE) :
    LTimer.getTicks (LTimer.unpause (LTimer.pause (LTimer.start T t0) t1) t2) t3
      = (t1 - t0) + (t3 - t2) := by
  simp only [LTimer.start, LTimer.pause, LTimer.unpause, LTimer.getTicks, Bool.not_false,
    Bool.and_self, Bool.and_false, if_true, Bool.false_eq_true, if_false]
  rw [Uint32.sub_eq_of_le t1 t0 h01 (by omega),
    Uint32.sub_eq_of_le t2 (t1 - t0) (by omega) (by omega),
    Uint32.sub_eq_of_le t3 (t2 - (t1 - t0)) (by omega) h3]
  omega

/-- C6, witness: ticks 0, 50, 150, 200 give 100. -/
theorem LTimer.getTicks_start_pause_unpause_witness :
    LTimer.getTicks (LTimer.unpause (LTimer.pause (LTimer.start LTimer.new 0) 50) 150) 200
      = 100 :=
  LTimer.getTicks_start_pause_unpause LTimer.new 0 50 150 200
    (by decide) (by decide) (by decide) (by decide)

/-- C7: after `start()` at `t0` and `pause()` at a tick `t1 >= t0` of the 32-bit tick source,
`getTicks()` returns `t1 - t0` at every tick: two reads at `t2` and `t3` agree (for all
`t2`, `t3`, in particular for those not before `t1`). -/
theorem LTimer.getTicks_frozen_while_paused (T : LTimer) (t0 t1 t2 t3 : Nat)
    (h01 : t0 ≤ t1) (h1 : t1 < UINT32_SIZE) :
    LTimer.getTicks (LTimer.pause (LTimer.start T t0) t1) t2
        = LTimer.getTicks (LTimer.pause (LTimer.start T t0) t1) t3 ∧
    LTimer.getTicks (LTimer.pause (LTimer.start T t0) t1) t2 = t1 - t0 := by
  simp only [LTimer.start, LTimer.pause, LTimer.getTicks, Bool.not_false,
    Bool.and_self, if_true, true_and]
  exact Uint32.sub_eq_of_le t1 t0 h01 h1

/-- C7, witness: started at 0 and paused at 50, the timer reads 50 at tick 50 and at
tick 150. -/
theorem LTimer.getTicks_frozen_while_paused_witness :
    LTimer.getTicks (LTimer.pause (LTimer.start LTimer.new 0) 50) 50
        = LTimer.getTicks (LTimer.pause (LTimer.start LTimer.new 0) 50) 150 ∧
    LTimer.getTicks (LTimer.pause (LTimer.start LTimer.new 0) 50) 50 = 50 - 0 :=
  LTimer.getTicks_frozen_while_paused LTimer.new 0 50 50 150 (by decide) (by decide)

/-- C8: `getTicks()` returns `mPausedTicks` when the timer is started and paused, the
32-bit unsigned difference `now - mStartTicks` when it is started and not paused, and 0
when it is not started. -/
theorem LTimer.getTicks_cases (t : LTimer) (now : Nat) :
    (t.mStarted = true ∧ t.mPaused = true → LTimer.getTicks t now = t.mPausedTicks) ∧
    (t.mStarted = true ∧ t.mPaused = false →
      (LTimer.getTicks t now : Int) = ((now : Int) - (t.mStartTicks : Int)) % 4294967296) ∧
    (t.mStarted = false → LTimer.getTicks t now = 0) := by
  refine ⟨?_, ?_, ?_⟩
  · rintro ⟨hs, hp⟩
    simp [LTimer.getTicks, hs, hp]
  · rintro ⟨hs, hp⟩
    simp only [LTimer.getTicks, hs, hp, Bool.and_false, Bool.false_eq_true, if_false, if_true]
    exact Uint32.sub_eq_emod now t.mStartTicks
  · intro hs
    simp [LTimer.getTicks, hs]

/-! ### `Dot::move` of Lesson27 -/

/-- The Y half of `Dot::move` does not touch `mPosX`. -/
theorem Lesson27.boxDot_moveY_keeps_mPosX (d : Lesson27.Dot) (wall : SDL_Rect) :
    (Lesson27.Dot.moveY d wall).mPosX = d.mPosX := by
  unfold Lesson27.Dot.moveY
  simp only []
  split_ifs <;> rfl

/-- The X half of `Dot::move`: `mPosX` advances by `mVelX` when the advanced collider is
inside the horizontal bounds and clear of the wall, and is restored otherwise. -/
theorem Lesson27.boxDot_moveX_mPosX_eq (d : Lesson27.Dot) (wall : SDL_Rect) :
    (Lesson27.Dot.moveX d wall).mPosX =
      if 0 ≤ d.mPosX + d.mVelX ∧ d.mPosX + d.mVelX + Lesson27.DOT_WIDTH ≤ SCREEN_WIDTH ∧
          Lesson27.checkCollision
            ⟨d.mPosX + d.mVelX, d.mCollider.y, d.mCollider.w, d.mCollider.h⟩ wall = false
      then d.mPosX + d.mVelX else d.mPosX := by
  unfold Lesson27.Dot.moveX
  simp only [Bool.or_eq_true, decide_eq_true_eq]
  split_ifs with h1 h2 h2
  · exfalso
    obtain ⟨a, b, c⟩ := h2
    rcases h1 with (h | h) | h
    · omega
    · omega
    · rw [c] at h; exact Bool.noConfusion h
  · simp
  · rfl
  · exfalso
    apply h2
    refine ⟨?_, ?_, ?_⟩
    · by_contra hn; exact h1 (Or.inl (Or.inl (by omega)))
    · by_contra hn; exact h1 (Or.inl (Or.inr (by omega)))
    · cases hc : Lesson27.checkCollision
          ⟨d.mPosX + d.mVelX, d.mCollider.y, d.mCollider.w, d.mCollider.h⟩ wall
      · rfl
      · exact absurd (Or.inr hc) h1

/-- C9: for the box Dot of Lesson27 with its collider co-located with its position,
`move(wall)` is all-or-nothing on the X axis: the new `mPosX` is `mPosX + mVelX` when
`0 <= mPosX + mVelX`, `mPosX + mVelX + DOT_WIDTH <= SCREEN_WIDTH` and the collider moved
to that x (at the old y) does not collide with the wall, and the old `mPosX` otherwise;
so it is always one of these two values. -/
theorem Lesson27.Dot_move_X_all_or_nothing (d : Lesson27.Dot) (wall : SDL_Rect)
    (hco : d.mCollider.x = d.mPosX ∧ d.mCollider.y = d.mPosY) :
    ((0 ≤ d.mPosX + d.mVelX ∧ d.mPosX + d.mVelX + Lesson27.DOT_WIDTH ≤ SCREEN_WIDTH ∧
        Lesson27.checkCollision
          ⟨d.mPosX + d.mVelX, d.mPosY, d.mCollider.w, d.mCollider.h⟩ wall = false) →
      (Lesson27.Dot.move d wall).mPosX = d.mPosX + d.mVelX) ∧
    (¬ (0 ≤ d.mPosX + d.mVelX ∧ d.mPosX + d.mVelX + Lesson27.DOT_WIDTH ≤ SCREEN_WIDTH ∧
        Lesson27.checkCollision
          ⟨d.mPosX + d.mVelX, d.mPosY, d.mCollider.w, d.mCollider.h⟩ wall = false) →
      (Lesson27.Dot.move d wall).mPosX = d.mPosX) ∧
    ((Lesson27.Dot.move d wall).mPosX = d.mPosX + d.mVelX ∨
      (Lesson27.Dot.move d wall).mPosX = d.mPosX) := by
  have hm : (Lesson27.Dot.move d wall).mPosX = (Lesson27.Dot.moveX d wall).mPosX :=
    Lesson27.boxDot_moveY_keeps_mPosX _ wall
  have hx := Lesson27.boxDot_moveX_mPosX_eq d wall
  rw [hco.2] at hx
  rw [hm, hx]
  refine ⟨fun h => if_pos h, fun h => if_neg h, ?_⟩
  split_ifs
  · exact Or.inl rfl
  · exact Or.inr rfl

/-- C9, witness: a dot at `(0,0)` with velocity `(10,0)` and the wall of `main` moves to
`x = 10`; its collider `(0,0,20,20)` is co-located. -/
theorem Lesson27.Dot_move_X_all_or_nothing_witness :
    (Lesson27.Dot.move ⟨0, 0, 10, 0, ⟨0, 0, 20, 20⟩⟩ ⟨300, 40, 40, 400⟩).mPosX = 10 ∧
    (Lesson27.Dot.move ⟨290, 100, 10, 0, ⟨290, 100, 20, 20⟩⟩ ⟨300, 40, 40, 400⟩).mPosX = 290 :=
  ⟨(Lesson27.Dot_move_X_all_or_nothing ⟨0, 0, 10, 0, ⟨0, 0, 20, 20⟩⟩ ⟨300, 40, 40, 400⟩
      ⟨rfl, rfl⟩).1 (by decide),
   (Lesson27.Dot_move_X_all_or_nothing ⟨290, 100, 10, 0, ⟨290, 100, 20, 20⟩⟩ ⟨300, 40, 40, 400⟩
      ⟨rfl, rfl⟩).2.1 (by decide)⟩

/-! ### `Dot::move` of Lesson29 -/

/-- The Y half of `Dot::move` of Lesson29 does not touch `mPosX`. -/
theorem Lesson29.circleDot_moveY_keeps_mPosX (d : Lesson29.Dot) (square : SDL_Rect)
    (circle : Lesson29.Circle) :
    (Lesson29.Dot.moveY d square circle).mPosX = d.mPosX := by
  unfold Lesson29.Dot.moveY Lesson29.Dot.shiftColliders
  simp only []
  split_ifs <;> rfl

/-- What the X half of `Dot::move` of Lesson29 computes for a collider of radius `>= 0`:
the assignment inside the condition sets `mPosX` to 0, so the result is `0` or
`0 - mVelX`, whatever the old `mPosX`. -/
theorem Lesson29.Dot_move_mPosX_forgets (d : Lesson29.Dot) (square : SDL_Rect)
    (circle : Lesson29.Circle) (hr : 0 ≤ d.mCollider.r) :
    (Lesson29.Dot.move d square circle).mPosX = 0 ∨
    (Lesson29.Dot.move d square circle).mPosX = 0 - d.mVelX := by
  unfold Lesson29.Dot.move
  rw [Lesson29.circleDot_moveY_keeps_mPosX]
  unfold Lesson29.Dot.moveX Lesson29.Dot.shiftColliders
  have hnr : ¬ d.mCollider.r < 0 := by omega
  simp only [hnr, if_false]
  split_ifs
  · exact Or.inr rfl
  · exact Or.inl rfl

/-- C10, the code at failing inputs: the dot that `main` creates at `(320, 240)` with zero
velocity, moved against the wall and the other dot of `main`, ends at `mPosX = 0`; a dot at
`(100, 100)` with zero velocity ends at `mPosX = 0`; the same dot with `mVelX = 1` ends at
`mPosX = 0`, which is neither `100 + 1` nor `100`. -/
theorem Lesson29.Dot_move_loses_mPosX :
    (Lesson29.mainDot.mPosX = 320 ∧ Lesson29.mainDot.mVelX = 0 ∧
      (Lesson29.Dot.move Lesson29.mainDot Lesson29.mainWall
        Lesson29.mainOtherDot.mCollider).mPosX = 0) ∧
    (Lesson29.Dot.move ⟨100, 100, 0, 0, ⟨100, 100, 10⟩⟩ Lesson29.mainWall
        Lesson29.mainOtherDot.mCollider).mPosX = 0 ∧
    (Lesson29.Dot.move ⟨100, 100, 1, 0, ⟨100, 100, 10⟩⟩ Lesson29.mainWall
        Lesson29.mainOtherDot.mCollider).mPosX = 0 := by
  decide

/-! ### Leaving the world: `Dot::move` of Lesson38 and Lesson27 -/

/-- The Y half of `Dot::move` of Lesson27: `mPosY` is restored when the advanced position is
outside the vertical bounds. -/
theorem Lesson27.boxDot_moveY_out_of_bounds (d : Lesson27.Dot) (wall : SDL_Rect)
    (hout : d.mPosY + d.mVelY < 0 ∨ d.mPosY + d.mVelY + Lesson27.DOT_HEIGHT > SCREEN_HEIGHT) :
    (Lesson27.Dot.moveY d wall).mPosY = d.mPosY := by
  unfold Lesson27.Dot.moveY
  simp only [Bool.or_eq_true, decide_eq_true_eq]
  rw [if_pos (Or.inl hout)]
  simp

/-- The X half of `Dot::move` of Lesson27 leaves `mPosY` and `mVelY` alone. -/
theorem Lesson27.boxDot_moveX_keeps_Y (d : Lesson27.Dot) (wall : SDL_Rect) :
    (Lesson27.Dot.moveX d wall).mPosY = d.mPosY ∧
    (Lesson27.Dot.moveX d wall).mVelY = d.mVelY := by
  unfold Lesson27.Dot.moveX
  simp only []
  split_ifs <;> exact ⟨rfl, rfl⟩

/-- C11: when one more step would leave the world on an axis, `Dot::move` leaves the
position on that axis unchanged, for the Dot of Lesson38 and the Dot of Lesson27 (against
any wall), on the X axis and on the Y axis. -/
theorem Dot_move_out_of_world_rollback (d38 : Lesson38.Dot) (d27 : Lesson27.Dot)
    (wall : SDL_Rect) :
    ((d38.mPosX + d38.mVelX < 0 ∨ d38.mPosX + d38.mVelX + Lesson38.DOT_WIDTH > SCREEN_WIDTH) →
      (Lesson38.Dot.move d38).mPosX = d38.mPosX) ∧
    ((d38.mPosY + d38.mVelY < 0 ∨ d38.mPosY + d38.mVelY + Lesson38.DOT_HEIGHT > SCREEN_HEIGHT) →
      (Lesson38.Dot.move d38).mPosY = d38.mPosY) ∧
    ((d27.mPosX + d27.mVelX < 0 ∨ d27.mPosX + d27.mVelX + Lesson27.DOT_WIDTH > SCREEN_WIDTH) →
      (Lesson27.Dot.move d27 wall).mPosX = d27.mPosX) ∧
    ((d27.mPosY + d27.mVelY < 0 ∨ d27.mPosY + d27.mVelY + Lesson27.DOT_HEIGHT > SCREEN_HEIGHT) →
      (Lesson27.Dot.move d27 wall).mPosY = d27.mPosY) := by
  refine ⟨?_, ?_, ?_, ?_⟩
  · intro h
    unfold Lesson38.Dot.move
    simp only [Bool.or_eq_true, decide_eq_true_eq]
    rw [if_pos h]
    split_ifs <;> simp
  · intro h
    unfold Lesson38.Dot.move
    simp only [Bool.or_eq_true, decide_eq_true_eq]
    split_ifs <;> simp
  · intro h
    have hm : (Lesson27.Dot.move d27 wall).mPosX = (Lesson27.Dot.moveX d27 wall).mPosX :=
      Lesson27.boxDot_moveY_keeps_mPosX _ wall
    rw [hm, Lesson27.boxDot_moveX_mPosX_eq]
    apply if_neg
    rintro ⟨h0, h1, _⟩
    omega
  · intro h
    obtain ⟨hp, hv⟩ := Lesson27.boxDot_moveX_keeps_Y d27 wall
    unfold Lesson27.Dot.move
    rw [Lesson27.boxDot_moveY_out_of_bounds _ wall (by rw [hp, hv]; exact h), hp]

/-- C11, witness: with velocity `(1,0)` at `mPosX = SCREEN_WIDTH - DOT_WIDTH = 620`, the Dot of
Lesson38 and the Dot of Lesson27 both stay at `mPosX = 620`. -/
theorem Dot_move_out_of_world_rollback_witness :
    (Lesson38.Dot.move ⟨620, 0, 1, 0⟩).mPosX = 620 ∧
    (Lesson27.Dot.move ⟨620, 0, 1, 0, ⟨620, 0, 20, 20⟩⟩ Lesson27.mainWall).mPosX = 620 :=
  ⟨(Dot_move_out_of_world_rollback ⟨620, 0, 1, 0⟩ ⟨620, 0, 1, 0, ⟨620, 0, 20, 20⟩⟩
      Lesson27.mainWall).1 (by decide),
   (Dot_move_out_of_world_rollback ⟨620, 0, 1, 0⟩ ⟨620, 0, 1, 0, ⟨620, 0, 20, 20⟩⟩
      Lesson27.mainWall).2.2.1 (by decide)⟩

/-! ### `Dot::handleEvent` -/

/-- C12: for the Dot of Lesson27 and of Lesson29, a non-repeat key-down of a direction key
changes exactly one velocity component by exactly `DOT_VEL` (UP: `mVelY - DOT_VEL`, DOWN:
`mVelY + DOT_VEL`, LEFT: `mVelX - DOT_VEL`, RIGHT: `mVelX + DOT_VEL`) and nothing else, and
a following non-repeat key-up of the same key restores the original state. -/
theorem Dot_handleEvent_direction_keys (d27 : Lesson27.Dot) (d29 : Lesson29.Dot) :
    (Lesson27.Dot.handleEvent d27 (keyDown 0 SDL_Keycode.SDLK_UP)
        = { d27 with mVelY := d27.mVelY - Lesson27.DOT_VEL } ∧
      Lesson27.Dot.handleEvent d27 (keyDown 0 SDL_Keycode.SDLK_DOWN)
        = { d27 with mVelY := d27.mVelY + Lesson27.DOT_VEL } ∧
      Lesson27.Dot.handleEvent d27 (keyDown 0 SDL_Keycode.SDLK_LEFT)
        = { d27 with mVelX := d27.mVelX - Lesson27.DOT_VEL } ∧
      Lesson27.Dot.handleEvent d27 (keyDown 0 SDL_Keycode.SDLK_RIGHT)
        = { d27 with mVelX := d27.mVelX + Lesson27.DOT_VEL }) ∧
    (Lesson29.Dot.handleEvent d29 (keyDown 0 SDL_Keycode.SDLK_UP)
        = { d29 with mVelY := d29.mVelY - Lesson29.DOT_VEL } ∧
      Lesson29.Dot.handleEvent d29 (keyDown 0 SDL_Keycode.SDLK_DOWN)
        = { d29 with mVelY := d29.mVelY + Lesson29.DOT_VEL } ∧
      Lesson29.Dot.handleEvent d29 (keyDown 0 SDL_Keycode.SDLK_LEFT)
        = { d29 with mVelX := d29.mVelX - Lesson29.DOT_VEL } ∧
      Lesson29.Dot.handleEvent d29 (keyDown 0 SDL_Keycode.SDLK_RIGHT)
        = { d29 with mVelX := d29.mVelX + Lesson29.DOT_VEL }) ∧
    (∀ k : SDL_Keycode,
      Lesson27.Dot.handleEvent (Lesson27.Dot.handleEvent d27 (keyDown 0 k)) (keyUp 0 k) = d27 ∧
      Lesson29.Dot.handleEvent (Lesson29.Dot.handleEvent d29 (keyDown 0 k)) (keyUp 0 k) = d29) := by
  refine ⟨⟨rfl, rfl, rfl, rfl⟩, ⟨rfl, rfl, rfl, rfl⟩, ?_⟩
  intro k
  cases d27
  cases d29
  cases k <;>
    simp [Lesson27.Dot.handleEvent, Lesson29.Dot.handleEvent, keyDown, keyUp]

/-- C13: a key-down event whose repeat flag is not zero, of any key, leaves the whole Dot
state of Lesson27 unchanged; in particular, after a non-repeat key-down of a key, a repeat
key-down of the same key does not change the state again. -/
theorem Lesson27.Dot_handleEvent_repeat_ignored (d : Lesson27.Dot) (e : SDL_Event)
    (hdown : e.type = SDL_EventType.SDL_KEYDOWN) (hrep : e.key.repeat_ ≠ 0) :
    Lesson27.Dot.handleEvent d e = d ∧
    Lesson27.Dot.handleEvent
        (Lesson27.Dot.handleEvent d (keyDown 0 e.key.keysym.sym)) e
      = Lesson27.Dot.handleEvent d (keyDown 0 e.key.keysym.sym) := by
  have key : ∀ s : Lesson27.Dot, Lesson27.Dot.handleEvent s e = s := by
    intro s
    unfold Lesson27.Dot.handleEvent
    simp [hdown, hrep]
  exact ⟨key d, key _⟩

/-- C13, witness: a held UP key (repeat flag 1) on a dot at rest, and after the first
key-down of UP. -/
theorem Lesson27.Dot_handleEvent_repeat_ignored_witness :
    Lesson27.Dot.handleEvent ⟨50, 50, 0, 0, ⟨50, 50, 20, 20⟩⟩ (keyDown 1 SDL_Keycode.SDLK_UP)
      = ⟨50, 50, 0, 0, ⟨50, 50, 20, 20⟩⟩ ∧
    Lesson27.Dot.handleEvent
        (Lesson27.Dot.handleEvent ⟨50, 50, 0, 0, ⟨50, 50, 20, 20⟩⟩
          (keyDown 0 SDL_Keycode.SDLK_UP)) (keyDown 1 SDL_Keycode.SDLK_UP)
      = Lesson27.Dot.handleEvent ⟨50, 50, 0, 0, ⟨50, 50, 20, 20⟩⟩
          (keyDown 0 SDL_Keycode.SDLK_UP) :=
  Lesson27.Dot_handleEvent_repeat_ignored ⟨50, 50, 0, 0, ⟨50, 50, 20, 20⟩⟩
    (keyDown 1 SDL_Keycode.SDLK_UP) rfl (by decide)

/-- C14: end to end on the Dot of Lesson27 at `(50,50)` with velocity `(0,0)`, a co-located
collider and the wall of `main`: a non-repeat key-down UP makes the velocity `(0,-10)`;
`move` then makes the position `(50,40)`; a non-repeat key-up UP returns the velocity to
`(0,0)`. -/
theorem Lesson27.Dot_end_to_end :
    (Lesson27.Dot.handleEvent ⟨50, 50, 0, 0, ⟨50, 50, 20, 20⟩⟩
        (keyDown 0 SDL_Keycode.SDLK_UP)).mVelX = 0 ∧
    (Lesson27.Dot.handleEvent ⟨50, 50, 0, 0, ⟨50, 50, 20, 20⟩⟩
        (keyDown 0 SDL_Keycode.SDLK_UP)).mVelY = -10 ∧
    (Lesson27.Dot.move (Lesson27.Dot.handleEvent ⟨50, 50, 0, 0, ⟨50, 50, 20, 20⟩⟩
        (keyDown 0 SDL_Keycode.SDLK_UP)) Lesson27.mainWall).mPosX = 50 ∧
    (Lesson27.Dot.move (Lesson27.Dot.handleEvent ⟨50, 50, 0, 0, ⟨50, 50, 20, 20⟩⟩
        (keyDown 0 SDL_Keycode.SDLK_UP)) Lesson27.mainWall).mPosY = 40 ∧
    (Lesson27.Dot.handleEvent
        (Lesson27.Dot.move (Lesson27.Dot.handleEvent ⟨50, 50, 0, 0, ⟨50, 50, 20, 20⟩⟩
          (keyDown 0 SDL_Keycode.SDLK_UP)) Lesson27.mainWall)
        (keyUp 0 SDL_Keycode.SDLK_UP)).mVelX = 0 ∧
    (Lesson27.Dot.handleEvent
        (Lesson27.Dot.move (Lesson27.Dot.handleEvent ⟨50, 50, 0, 0, ⟨50, 50, 20, 20⟩⟩
          (keyDown 0 SDL_Keycode.SDLK_UP)) Lesson27.mainWall)
        (keyUp 0 SDL_Keycode.SDLK_UP)).mVelY = 0 := by
  decide

/-! ### Symmetry and touching shapes -/

/-- C15: the box detector of Lesson27 is symmetric: `checkCollision(a, b)` equals
`checkCollision(b, a)` for all integer coordinates and sizes. -/
theorem Lesson27.checkCollision_symmetric (a b : SDL_Rect) :
    Lesson27.checkCollision a b = Lesson27.checkCollision b a := by
  rw [Bool.eq_iff_iff, Lesson27.checkCollision_eq_true_iff a b,
    Lesson27.checkCollision_eq_true_iff b a]
  omega

/-- C16: two rectangles that touch along an edge (`a.x + a.w = b.x`, or `b.x + b.w = a.x`,
or `a.y + a.h = b.y`, or `b.y + b.h = a.y`) do not collide for the box detector of
Lesson27. The widths and heights may be any integers, in particular `>= 0`. -/
theorem Lesson27.checkCollision_touching_edges (a b : SDL_Rect)
    (htouch : a.x + a.w = b.x ∨ b.x + b.w = a.x ∨ a.y + a.h = b.y ∨ b.y + b.h = a.y) :
    Lesson27.checkCollision a b = false := by
  rw [← Bool.not_eq_true, Lesson27.checkCollision_eq_true_iff a b]
  omega

/-- C16, witness: `(0,0,10,10)` and `(10,0,10,10)` share the edge `x = 10`. -/
theorem Lesson27.checkCollision_touching_edges_witness :
    ((0 : Int) ≤ (SDL_Rect.mk 0 0 10 10).w ∧ (0 : Int) ≤ (SDL_Rect.mk 0 0 10 10).h ∧
      (0 : Int) ≤ (SDL_Rect.mk 10 0 10 10).w ∧ (0 : Int) ≤ (SDL_Rect.mk 10 0 10 10).h) ∧
    Lesson27.checkCollision (SDL_Rect.mk 0 0 10 10) (SDL_Rect.mk 10 0 10 10) = false :=
  ⟨by decide,
    Lesson27.checkCollision_touching_edges (SDL_Rect.mk 0 0 10 10) (SDL_Rect.mk 10 0 10 10)
      (Or.inl (by decide))⟩

/-- C17: two circles whose squared centre distance equals `(a.r + b.r)^2` (centres exactly
`a.r + b.r` apart) do not collide for the circle/circle detector of Lesson29. -/
theorem Lesson29.checkCollision_Circle_Circle_touching (a b : Lesson29.Circle)
    (htouch : (b.x - a.x) ^ 2 + (b.y - a.y) ^ 2 = (a.r + b.r) ^ 2) :
    Lesson29.checkCollision_Circle_Circle a b = false := by
  unfold Lesson29.checkCollision_Circle_Circle Lesson29.distanceSquared
  simp only [pow_two] at htouch
  simp only [htouch, lt_irrefl, if_false]

/-- C17, witness: radii 5 and 5 with centres `(0,0)` and `(10,0)`, and with centres `(0,0)`
and `(6,8)`. -/
theorem Lesson29.checkCollision_Circle_Circle_touching_witness :
    Lesson29.checkCollision_Circle_Circle ⟨0, 0, 5⟩ ⟨10, 0, 5⟩ = false ∧
    Lesson29.checkCollision_Circle_Circle ⟨0, 0, 5⟩ ⟨6, 8, 5⟩ = false :=
  ⟨Lesson29.checkCollision_Circle_Circle_touching ⟨0, 0, 5⟩ ⟨10, 0, 5⟩ (by decide),
   Lesson29.checkCollision_Circle_Circle_touching ⟨0, 0, 5⟩ ⟨6, 8, 5⟩ (by decide)⟩

/-! ### The timer transitions -/

/-- The wrapping difference of a tick with itself is 0. -/
theorem Uint32.sub_self_eq_zero (a : Nat) : Uint32.sub a a = 0 := by
  unfold Uint32.sub UINT32_SIZE
  omega

/-- C18: from every timer state, `start()` at tick `now` yields the running state with
`mStarted = true`, `mPaused = false`, `mStartTicks = now` and `mPausedTicks = 0`, and
`getTicks()` read at the same tick is 0. -/
theorem LTimer.start_resets (t : LTimer) (now : Nat) :
    LTimer.start t now
      = { mStartTicks := now, mPausedTicks := 0, mPaused := false, mStarted := true } ∧
    LTimer.getTicks (LTimer.start t now) now = 0 := by
  refine ⟨rfl, ?_⟩
  simp only [LTimer.start, LTimer.getTicks, Bool.and_false, Bool.false_eq_true, if_false,
    if_true]
  exact Uint32.sub_self_eq_zero now

/-- Every state reached from the constructor with `mStarted = false` is the freshly
constructed state. -/
theorem LTimer.run_stopped_eq_new (ops : List LTimer.Op) :
    (LTimer.run ops).mStarted = false → LTimer.run ops = LTimer.new := by
  unfold LTimer.run
  induction ops using List.reverseRecOn with
  | nil => intro _; rfl
  | append_singleton l op ih =>
    rw [List.foldl_append, List.foldl_cons, List.foldl_nil]
    cases op with
    | start now => intro h; simp [LTimer.step, LTimer.start] at h
    | stop => intro _; rfl
    | pause now =>
      intro h
      simp only [LTimer.step, LTimer.pause] at h ⊢
      split_ifs at h ⊢ with hc
      · simp only [Bool.and_eq_true] at hc
        rw [hc.1] at h
        exact Bool.noConfusion h
      · exact ih h
    | unpause now =>
      intro h
      simp only [LTimer.step, LTimer.unpause] at h ⊢
      split_ifs at h ⊢ with hc
      · simp only [Bool.and_eq_true] at hc
        rw [hc.1] at h
        exact Bool.noConfusion h
      · exact ih h

/-- C19: from every timer state, `stop()` yields exactly the freshly constructed state;
consequently `stop()` on a stopped timer, in any state reachable from the constructor by
`start`, `stop`, `pause` and `unpause`, leaves the state unchanged. -/
theorem LTimer.stop_resets (t : LTimer) (ops : List LTimer.Op) :
    LTimer.stop t = LTimer.new ∧
    LTimer.stop t
      = { mStartTicks := 0, mPausedTicks := 0, mPaused := false, mStarted := false } ∧
    ((LTimer.run ops).mStarted = false → LTimer.stop (LTimer.run ops) = LTimer.run ops) := by
  refine ⟨rfl, rfl, fun h => ?_⟩
  rw [LTimer.run_stopped_eq_new ops h]
  rfl

/-- C20: `pause()` at tick `now` on a running, unpaused timer sets `mPaused = true`,
`mPausedTicks = now - mStartTicks` (32-bit unsigned) and `mStartTicks = 0`, and keeps
`mStarted`; on a stopped timer or on an already paused timer it leaves every field
unchanged. -/
theorem LTimer.pause_cases (t : LTimer) (now : Nat) :
    (t.mStarted = true ∧ t.mPaused = false →
      LTimer.pause t now
        = { mStartTicks := 0, mPausedTicks := Uint32.sub now t.mStartTicks,
            mPaused := true, mStarted := true } ∧
      ((LTimer.pause t now).mPausedTicks : Int)
        = ((now : Int) - (t.mStartTicks : Int)) % 4294967296) ∧
    (t.mStarted = false ∨ t.mPaused = true → LTimer.pause t now = t) := by
  refine ⟨?_, ?_⟩
  · rintro ⟨hs, hp⟩
    have e : LTimer.pause t now
        = { mStartTicks := 0, mPausedTicks := Uint32.sub now t.mStartTicks,
            mPaused := true, mStarted := true } := by
      simp [LTimer.pause, hs, hp]
    refine ⟨e, ?_⟩
    rw [e]
    exact Uint32.sub_eq_emod now t.mStartTicks
  · rintro (hs | hp)
    · simp [LTimer.pause, hs]
    · simp [LTimer.pause, hp]

/-- Subtracting from a tick the wrapping difference of that tick and `p` gives back `p`
modulo `2 ^ 32`. -/
theorem Uint32.sub_sub_self (now p : Nat) :
    Uint32.sub now (Uint32.sub now p) = p % UINT32_SIZE := by
  unfold Uint32.sub UINT32_SIZE
  omega

/-- C21: `unpause()` at tick `now` on a paused timer makes it running with
`mStartTicks = now - mPausedTicks` (32-bit unsigned) and `mPausedTicks = 0`, so that
`getTicks()` read at the same tick is the frozen value modulo `2 ^ 32`, hence the frozen
value itself when that is a `Uint32`; on a stopped timer or on a running unpaused timer it
leaves every field unchanged. -/
theorem LTimer.unpause_cases (t : LTimer) (now : Nat) :
    (t.mStarted = true ∧ t.mPaused = true →
      LTimer.unpause t now
        = { mStartTicks := Uint32.sub now t.mPausedTicks, mPausedTicks := 0,
            mPaused := false, mStarted := true } ∧
      ((LTimer.unpause t now).mStartTicks : Int)
        = ((now : Int) - (t.mPausedTicks : Int)) % 4294967296 ∧
      LTimer.getTicks (LTimer.unpause t now) now = t.mPausedTicks % UINT32_SIZE ∧
      (t.mPausedTicks < UINT32_SIZE →
        LTimer.getTicks (LTimer.unpause t now) now = LTimer.getTicks t now)) ∧
    (t.mStarted = false ∨ t.mPaused = false → LTimer.unpause t now = t) := by
  refine ⟨?_, ?_⟩
  · rintro ⟨hs, hp⟩
    have e : LTimer.unpause t now
        = { mStartTicks := Uint32.sub now t.mPausedTicks, mPausedTicks := 0,
            mPaused := false, mStarted := true } := by
      simp [LTimer.unpause, hs, hp]
    have g : LTimer.getTicks (LTimer.unpause t now) now = t.mPausedTicks % UINT32_SIZE := by
      rw [e]
      simp only [LTimer.getTicks, Bool.and_false, Bool.false_eq_true, if_false, if_true]
      exact Uint32.sub_sub_self now t.mPausedTicks
    refine ⟨e, ?_, g, ?_⟩
    · rw [e]
      exact Uint32.sub_eq_emod now t.mPausedTicks
    · intro hlt
      rw [g, Nat.mod_eq_of_lt hlt]
      simp [LTimer.getTicks, hs, hp]
  · rintro (hs | hp)
    · simp [LTimer.unpause, hs]
    · simp [LTimer.unpause, hp]

/-- The four field relations that every method of `LTimer` maintains. -/
theorem LTimer.step_keeps_relations (t : LTimer) (op : LTimer.Op)
    (h1 : t.mPaused = true → t.mStarted = true)
    (h2 : t.mPaused = true → t.mStartTicks = 0)
    (h3 : t.mPaused = false → t.mPausedTicks = 0)
    (h4 : t.mStarted = false → t.mStartTicks = 0 ∧ t.mPausedTicks = 0) :
    ((LTimer.step t op).mPaused = true → (LTimer.step t op).mStarted = true) ∧
    ((LTimer.step t op).mPaused = true → (LTimer.step t op).mStartTicks = 0) ∧
    ((LTimer.step t op).mPaused = false → (LTimer.step t op).mPausedTicks = 0) ∧
    ((LTimer.step t op).mStarted = false →
      (LTimer.step t op).mStartTicks = 0 ∧ (LTimer.step t op).mPausedTicks = 0) := by
  cases op with
  | start now => simp [LTimer.step, LTimer.start]
  | stop => simp [LTimer.step, LTimer.stop]
  | pause now =>
    simp only [LTimer.step, LTimer.pause]
    split_ifs with hc
    · simp only [Bool.and_eq_true] at hc
      simp [hc.1]
    · exact ⟨h1, h2, h3, h4⟩
  | unpause now =>
    simp only [LTimer.step, LTimer.unpause]
    split_ifs with hc
    · simp only [Bool.and_eq_true] at hc
      simp [hc.1]
    · exact ⟨h1, h2, h3, h4⟩

/-- C27: every `LTimer` state reached from the constructor by a sequence of `start`, `stop`,
`pause` and `unpause` at arbitrary ticks satisfies: `mPaused` implies `mStarted`; `mPaused`
implies `mStartTicks = 0`; not `mPaused` implies `mPausedTicks = 0`; not `mStarted` implies
`mStartTicks = 0` and `mPausedTicks = 0`. Hence `isPaused()` equals `mPaused` there. -/
theorem LTimer.run_relations (ops : List LTimer.Op) :
    ((LTimer.run ops).mPaused = true → (LTimer.run ops).mStarted = true) ∧
    ((LTimer.run ops).mPaused = true → (LTimer.run ops).mStartTicks = 0) ∧
    ((LTimer.run ops).mPaused = false → (LTimer.run ops).mPausedTicks = 0) ∧
    ((LTimer.run ops).mStarted = false →
      (LTimer.run ops).mStartTicks = 0 ∧ (LTimer.run ops).mPausedTicks = 0) ∧
    LTimer.isPaused (LTimer.run ops) = (LTimer.run ops).mPaused := by
  have main : ((LTimer.run ops).mPaused = true → (LTimer.run ops).mStarted = true) ∧
      ((LTimer.run ops).mPaused = true → (LTimer.run ops).mStartTicks = 0) ∧
      ((LTimer.run ops).mPaused = false → (LTimer.run ops).mPausedTicks = 0) ∧
      ((LTimer.run ops).mStarted = false →
        (LTimer.run ops).mStartTicks = 0 ∧ (LTimer.run ops).mPausedTicks = 0) := by
    unfold LTimer.run
    induction ops using List.reverseRecOn with
    | nil => simp [LTimer.new]
    | append_singleton l op ih =>
      rw [List.foldl_append, List.foldl_cons, List.foldl_nil]
      exact LTimer.step_keeps_relations _ op ih.1 ih.2.1 ih.2.2.1 ih.2.2.2
  obtain ⟨a, b, c, d⟩ := main
  refine ⟨a, b, c, d, ?_⟩
  unfold LTimer.isPaused
  cases hp : (LTimer.run ops).mPaused
  · rfl
  · rw [a hp]
    rfl

/-! ### Invariants of `Dot::move` -/

/-- After the X half of `Dot::move` of Lesson27 the collider's `x` is `mPosX`, and its `y`,
`w` and `h` are the old ones. -/
theorem Lesson27.boxDot_moveX_collider (d : Lesson27.Dot) (wall : SDL_Rect) :
    (Lesson27.Dot.moveX d wall).mCollider
      = { d.mCollider with x := (Lesson27.Dot.moveX d wall).mPosX } := by
  unfold Lesson27.Dot.moveX
  simp only []
  split_ifs <;> rfl

/-- After the Y half of `Dot::move` of Lesson27 the collider's `y` is `mPosY`, and its `x`,
`w` and `h` are the old ones. -/
theorem Lesson27.boxDot_moveY_collider (d : Lesson27.Dot) (wall : SDL_Rect) :
    (Lesson27.Dot.moveY d wall).mCollider
      = { d.mCollider with y := (Lesson27.Dot.moveY d wall).mPosY } := by
  unfold Lesson27.Dot.moveY
  simp only []
  split_ifs <;> rfl

/-- After the Y half of `Dot::move` of Lesson29 the collider's centre is the position. -/
theorem Lesson29.circleDot_moveY_collider (d : Lesson29.Dot) (square : SDL_Rect)
    (circle : Lesson29.Circle) :
    (Lesson29.Dot.moveY d square circle).mCollider.x
        = (Lesson29.Dot.moveY d square circle).mPosX ∧
    (Lesson29.Dot.moveY d square circle).mCollider.y
        = (Lesson29.Dot.moveY d square circle).mPosY := by
  unfold Lesson29.Dot.moveY Lesson29.Dot.shiftColliders
  simp only []
  split_ifs <;> exact ⟨rfl, rfl⟩

/-- C22: the collider is kept co-located with the position: after `move`, from any state
and with any obstacles, the collider's `x` and `y` equal `mPosX` and `mPosY`, for the box
Dot of Lesson27 and the circle Dot of Lesson29; for the Dot of Lesson29 this also holds
right after construction. -/
theorem Dot_move_collider_colocated (d27 : Lesson27.Dot) (wall : SDL_Rect)
    (d29 : Lesson29.Dot) (square : SDL_Rect) (circle : Lesson29.Circle) (x y : Int) :
    ((Lesson27.Dot.move d27 wall).mCollider.x = (Lesson27.Dot.move d27 wall).mPosX ∧
      (Lesson27.Dot.move d27 wall).mCollider.y = (Lesson27.Dot.move d27 wall).mPosY) ∧
    ((Lesson29.Dot.move d29 square circle).mCollider.x
        = (Lesson29.Dot.move d29 square circle).mPosX ∧
      (Lesson29.Dot.move d29 square circle).mCollider.y
        = (Lesson29.Dot.move d29 square circle).mPosY) ∧
    ((Lesson29.Dot.new x y).mCollider.x = (Lesson29.Dot.new x y).mPosX ∧
      (Lesson29.Dot.new x y).mCollider.y = (Lesson29.Dot.new x y).mPosY) := by
  refine ⟨⟨?_, ?_⟩, ?_, ⟨rfl, rfl⟩⟩
  · unfold Lesson27.Dot.move
    rw [Lesson27.boxDot_moveY_collider, Lesson27.boxDot_moveY_keeps_mPosX,
      Lesson27.boxDot_moveX_collider]
  · unfold Lesson27.Dot.move
    rw [Lesson27.boxDot_moveY_collider]
  · exact Lesson29.circleDot_moveY_collider _ square circle

/-- C23: axis order matters in `Dot::move` of Lesson27: for the wall `(300,40,40,400)` and
the dot at `(280,20)` with velocity `(10,10)` and co-located collider, X-then-Y (the
code's order) ends at `(290,20)` and Y-then-X ends at `(280,30)`; so there are a dot and
a wall on which the two orders end at different positions. -/
theorem Lesson27.Dot_move_axis_order_matters :
    ((Lesson27.Dot.move ⟨280, 20, 10, 10, ⟨280, 20, 20, 20⟩⟩ Lesson27.mainWall).mPosX = 290 ∧
      (Lesson27.Dot.move ⟨280, 20, 10, 10, ⟨280, 20, 20, 20⟩⟩ Lesson27.mainWall).mPosY = 20 ∧
      (Lesson27.Dot.moveYthenX ⟨280, 20, 10, 10, ⟨280, 20, 20, 20⟩⟩ Lesson27.mainWall).mPosX
        = 280 ∧
      (Lesson27.Dot.moveYthenX ⟨280, 20, 10, 10, ⟨280, 20, 20, 20⟩⟩ Lesson27.mainWall).mPosY
        = 30) ∧
    ∃ (d : Lesson27.Dot) (wall : SDL_Rect),
      ((Lesson27.Dot.move d wall).mPosX, (Lesson27.Dot.move d wall).mPosY)
        ≠ ((Lesson27.Dot.moveYthenX d wall).mPosX, (Lesson27.Dot.moveYthenX d wall).mPosY) := by
  refine ⟨by decide, ⟨280, 20, 10, 10, ⟨280, 20, 20, 20⟩⟩, Lesson27.mainWall, by decide⟩

/-- The X half of `Dot::move` of Lesson27 keeps a co-located collider clear of the wall. -/
theorem Lesson27.boxDot_moveX_clear (d : Lesson27.Dot) (wall : SDL_Rect)
    (hx : d.mCollider.x = d.mPosX)
    (hclear : Lesson27.checkCollision d.mCollider wall = false) :
    Lesson27.checkCollision (Lesson27.Dot.moveX d wall).mCollider wall = false := by
  unfold Lesson27.Dot.moveX
  simp only [Bool.or_eq_true, decide_eq_true_eq]
  split_ifs with hc
  · have e : ({ d.mCollider with x := d.mPosX + d.mVelX - d.mVelX } : SDL_Rect)
        = d.mCollider := by
      cases hd : d.mCollider
      rw [hd] at hx
      simp only [SDL_Rect.mk.injEq, and_true]
      simp only at hx
      omega
    simp only [e]
    exact hclear
  · cases hcc : Lesson27.checkCollision { d.mCollider with x := d.mPosX + d.mVelX } wall
    · rfl
    · exact absurd (Or.inr hcc) hc

/-- The Y half of `Dot::move` of Lesson27 keeps a co-located collider clear of the wall. -/
theorem Lesson27.boxDot_moveY_clear (d : Lesson27.Dot) (wall : SDL_Rect)
    (hy : d.mCollider.y = d.mPosY)
    (hclear : Lesson27.checkCollision d.mCollider wall = false) :
    Lesson27.checkCollision (Lesson27.Dot.moveY d wall).mCollider wall = false := by
  unfold Lesson27.Dot.moveY
  simp only [Bool.or_eq_true, decide_eq_true_eq]
  split_ifs with hc
  · have e : ({ d.mCollider with y := d.mPosY + d.mVelY - d.mVelY } : SDL_Rect)
        = d.mCollider := by
      cases hd : d.mCollider
      rw [hd] at hy
      simp only [SDL_Rect.mk.injEq, true_and, and_true]
      simp only at hy
      omega
    simp only [e]
    exact hclear
  · cases hcc : Lesson27.checkCollision { d.mCollider with y := d.mPosY + d.mVelY } wall
    · rfl
    · exact absurd (Or.inr hcc) hc

/-- C25: the Dot of Lesson27 never ends a step inside the wall: when the collider is
co-located with the position and does not collide with the wall, the collider after
`move(wall)` does not collide with the wall either, for every wall and every velocity. -/
theorem Lesson27.Dot_move_stays_clear (d : Lesson27.Dot) (wall : SDL_Rect)
    (hco : d.mCollider.x = d.mPosX ∧ d.mCollider.y = d.mPosY)
    (hclear : Lesson27.checkCollision d.mCollider wall = false) :
    Lesson27.checkCollision (Lesson27.Dot.move d wall).mCollider wall = false := by
  unfold Lesson27.Dot.move
  apply Lesson27.boxDot_moveY_clear
  · rw [Lesson27.boxDot_moveX_collider, (Lesson27.boxDot_moveX_keeps_Y d wall).1]
    exact hco.2
  · exact Lesson27.boxDot_moveX_clear d wall hco.1 hclear

/-- C25, witness: the dot at `(280,20)` with velocity `(10,10)`, next to the wall of `main`,
is clear of the wall before and after `move`. -/
theorem Lesson27.Dot_move_stays_clear_witness :
    Lesson27.checkCollision (SDL_Rect.mk 280 20 20 20) Lesson27.mainWall = false ∧
    Lesson27.checkCollision
      (Lesson27.Dot.move ⟨280, 20, 10, 10, ⟨280, 20, 20, 20⟩⟩ Lesson27.mainWall).mCollider
      Lesson27.mainWall = false :=
  ⟨by decide,
    Lesson27.Dot_move_stays_clear ⟨280, 20, 10, 10, ⟨280, 20, 20, 20⟩⟩ Lesson27.mainWall
      ⟨rfl, rfl⟩ (by decide)⟩

/-- The Y half of `Dot::move` of Lesson27 leaves `mPosY` alone or advances it to a value
inside the vertical bounds. -/
theorem Lesson27.boxDot_moveY_mPosY_cases (d : Lesson27.Dot) (wall : SDL_Rect) :
    (Lesson27.Dot.moveY d wall).mPosY = d.mPosY ∨
    ((Lesson27.Dot.moveY d wall).mPosY = d.mPosY + d.mVelY ∧
      0 ≤ d.mPosY + d.mVelY ∧ d.mPosY + d.mVelY + Lesson27.DOT_HEIGHT ≤ SCREEN_HEIGHT) := by
  unfold Lesson27.Dot.moveY
  simp only [Bool.or_eq_true, decide_eq_true_eq]
  split_ifs with hc
  · left
    simp
  · right
    refine ⟨rfl, ?_, ?_⟩
    · by_contra hn; exact hc (Or.inl (Or.inl (by omega)))
    · by_contra hn; exact hc (Or.inl (Or.inr (by omega)))

/-- C26: the Dot stays on screen: if `0 <= mPosX <= SCREEN_WIDTH - DOT_WIDTH` and
`0 <= mPosY <= SCREEN_HEIGHT - DOT_HEIGHT` hold before `move`, they hold after it, for the
Dot of Lesson38 and the Dot of Lesson27, for every velocity and every wall. -/
theorem Dot_move_stays_on_screen (d38 : Lesson38.Dot) (d27 : Lesson27.Dot) (wall : SDL_Rect) :
    ((0 ≤ d38.mPosX ∧ d38.mPosX ≤ SCREEN_WIDTH - Lesson38.DOT_WIDTH) ∧
        (0 ≤ d38.mPosY ∧ d38.mPosY ≤ SCREEN_HEIGHT - Lesson38.DOT_HEIGHT) →
      (0 ≤ (Lesson38.Dot.move d38).mPosX ∧
          (Lesson38.Dot.move d38).mPosX ≤ SCREEN_WIDTH - Lesson38.DOT_WIDTH) ∧
        (0 ≤ (Lesson38.Dot.move d38).mPosY ∧
          (Lesson38.Dot.move d38).mPosY ≤ SCREEN_HEIGHT - Lesson38.DOT_HEIGHT)) ∧
    ((0 ≤ d27.mPosX ∧ d27.mPosX ≤ SCREEN_WIDTH - Lesson27.DOT_WIDTH) ∧
        (0 ≤ d27.mPosY ∧ d27.mPosY ≤ SCREEN_HEIGHT - Lesson27.DOT_HEIGHT) →
      (0 ≤ (Lesson27.Dot.move d27 wall).mPosX ∧
          (Lesson27.Dot.move d27 wall).mPosX ≤ SCREEN_WIDTH - Lesson27.DOT_WIDTH) ∧
        (0 ≤ (Lesson27.Dot.move d27 wall).mPosY ∧
          (Lesson27.Dot.move d27 wall).mPosY ≤ SCREEN_HEIGHT - Lesson27.DOT_HEIGHT)) := by
  constructor
  · rintro ⟨⟨hx0, hx1⟩, ⟨hy0, hy1⟩⟩
    unfold Lesson38.Dot.move
    simp only [Bool.or_eq_true, decide_eq_true_eq]
    split_ifs with h1 h2 h2 <;> dsimp only at * <;>
      exact ⟨⟨by omega, by omega⟩, ⟨by omega, by omega⟩⟩
  · rintro ⟨⟨hx0, hx1⟩, ⟨hy0, hy1⟩⟩
    have hX : (Lesson27.Dot.move d27 wall).mPosX = (Lesson27.Dot.moveX d27 wall).mPosX :=
      Lesson27.boxDot_moveY_keeps_mPosX _ wall
    have hXeq := Lesson27.boxDot_moveX_mPosX_eq d27 wall
    obtain ⟨hp, hv⟩ := Lesson27.boxDot_moveX_keeps_Y d27 wall
    have hY := Lesson27.boxDot_moveY_mPosY_cases (Lesson27.Dot.moveX d27 wall) wall
    rw [hp, hv] at hY
    change (Lesson27.Dot.move d27 wall).mPosY = d27.mPosY ∨
      ((Lesson27.Dot.move d27 wall).mPosY = d27.mPosY + d27.mVelY ∧ _) at hY
    rw [hX, hXeq]
    refine ⟨?_, ?_⟩
    · split_ifs with hc
      · obtain ⟨c0, c1, _⟩ := hc
        exact ⟨c0, by omega⟩
      · exact ⟨hx0, hx1⟩
    · rcases hY with e | ⟨e, c0, c1⟩
      · rw [e]
        exact ⟨hy0, hy1⟩
      · rw [e]
        exact ⟨c0, by omega⟩

/-- C26, witness: a dot of Lesson38 at the right border `(620,0)` with velocity `(10,-10)`, and
a dot of Lesson27 at the bottom border `(0,460)` with velocity `(-10,10)`, stay on screen. -/
theorem Dot_move_stays_on_screen_witness :
    ((0 ≤ (Lesson38.Dot.move ⟨620, 0, 10, -10⟩).mPosX ∧
        (Lesson38.Dot.move ⟨620, 0, 10, -10⟩).mPosX ≤ SCREEN_WIDTH - Lesson38.DOT_WIDTH) ∧
      (0 ≤ (Lesson38.Dot.move ⟨620, 0, 10, -10⟩).mPosY ∧
        (Lesson38.Dot.move ⟨620, 0, 10, -10⟩).mPosY ≤ SCREEN_HEIGHT - Lesson38.DOT_HEIGHT)) ∧
    ((0 ≤ (Lesson27.Dot.move ⟨0, 460, -10, 10, ⟨0, 460, 20, 20⟩⟩ Lesson27.mainWall).mPosX ∧
        (Lesson27.Dot.move ⟨0, 460, -10, 10, ⟨0, 460, 20, 20⟩⟩ Lesson27.mainWall).mPosX
          ≤ SCREEN_WIDTH - Lesson27.DOT_WIDTH) ∧
      (0 ≤ (Lesson27.Dot.move ⟨0, 460, -10, 10, ⟨0, 460, 20, 20⟩⟩ Lesson27.mainWall).mPosY ∧
        (Lesson27.Dot.move ⟨0, 460, -10, 10, ⟨0, 460, 20, 20⟩⟩ Lesson27.mainWall).mPosY
          ≤ SCREEN_HEIGHT - Lesson27.DOT_HEIGHT)) :=
  ⟨(Dot_move_stays_on_screen ⟨620, 0, 10, -10⟩ ⟨0, 460, -10, 10, ⟨0, 460, 20, 20⟩⟩
      Lesson27.mainWall).1 (by decide),
   (Dot_move_stays_on_screen ⟨620, 0, 10, -10⟩ ⟨0, 460, -10, 10, ⟨0, 460, 20, 20⟩⟩
      Lesson27.mainWall).2 (by decide)⟩

/-! ### The clamped point is the nearest point of the box -/

/-- The closest coordinate that the circle/box detector computes lies in `[lo, lo + len]`
when `len >= 0`, and no coordinate of that interval is nearer to `v`. -/
theorem closest_is_nearest (v lo len : Int) (hlen : 0 ≤ len) :
    (lo ≤ (if v < lo then lo else if v > lo + len then lo + len else v) ∧
      (if v < lo then lo else if v > lo + len then lo + len else v) ≤ lo + len) ∧
    ∀ p : Int, lo ≤ p → p ≤ lo + len →
      ((if v < lo then lo else if v > lo + len then lo + len else v) - v) ^ 2 ≤ (p - v) ^ 2 := by
  split_ifs with h1 h2
  · refine ⟨⟨le_refl _, by omega⟩, fun p hp _ => ?_⟩
    exact pow_le_pow_left₀ (by omega) (by omega) 2
  · refine ⟨⟨by omega, le_refl _⟩, fun p _ hp => ?_⟩
    have e1 : (lo + len - v) ^ 2 = (v - (lo + len)) ^ 2 := by ring
    have e2 : (p - v) ^ 2 = (v - p) ^ 2 := by ring
    rw [e1, e2]
    exact pow_le_pow_left₀ (by omega) (by omega) 2
  · refine ⟨⟨by omega, by omega⟩, fun p _ _ => ?_⟩
    rw [sub_self]
    positivity

/-- Over the mathematical integers: for a rectangle with `w >= 0` and `h >= 0`, the
circle/box detector returns true if and only if some integer point `(px, py)` of the box,
`r.x <= px <= r.x + r.w` and `r.y <= py <= r.y + r.h`, satisfies
`(px - c.x)^2 + (py - c.y)^2 < c.r^2`. -/
theorem Lesson29.checkCollision_Circle_Rect_model_iff_exists_point (c : Lesson29.Circle)
    (r : SDL_Rect) (hw : 0 ≤ r.w) (hh : 0 ≤ r.h) :
    Lesson29.checkCollision_Circle_Rect c r = true ↔
      ∃ px py : Int, (r.x ≤ px ∧ px ≤ r.x + r.w) ∧ (r.y ≤ py ∧ py ≤ r.y + r.h) ∧
        (px - c.x) ^ 2 + (py - c.y) ^ 2 < c.r ^ 2 := by
  obtain ⟨hxin, hxmin⟩ := closest_is_nearest c.x r.x r.w hw
  obtain ⟨hyin, hymin⟩ := closest_is_nearest c.y r.y r.h hh
  have hval : Lesson29.checkCollision_Circle_Rect c r = true ↔
      ((if c.x < r.x then r.x else if c.x > r.x + r.w then r.x + r.w else c.x) - c.x) ^ 2
        + ((if c.y < r.y then r.y else if c.y > r.y + r.h then r.y + r.h else c.y) - c.y) ^ 2
        < c.r ^ 2 := by
    unfold Lesson29.checkCollision_Circle_Rect Lesson29.distanceSquared
    simp only [pow_two]
    split_ifs <;> simp_all
  rw [hval]
  constructor
  · intro h
    exact ⟨_, _, hxin, hyin, h⟩
  · rintro ⟨px, py, ⟨hx0, hx1⟩, ⟨hy0, hy1⟩, hlt⟩
    have hx := hxmin px hx0 hx1
    have hy := hymin py hy0 hy1
    linarith

/-! ### The frame counter of `DataStream::getBuffer` (Lesson42) -/

/-- The state after `n` calls of `getBuffer()` in closed form. -/
theorem Lesson42.DataStream_after_eq (n : Nat) :
    Lesson42.DataStream.after n
      = { mCurrentImage := ((n : Int) / 4) % 4, mDelayFrames := 4 - (n : Int) % 4 } := by
  induction n with
  | zero => rfl
  | succ k ih =>
    rw [Lesson42.DataStream.after, ih]
    unfold Lesson42.DataStream.getBuffer
    simp only [Nat.cast_add, Nat.cast_one]
    split_ifs with h1 h2 h2 <;> simp only [Lesson42.DataStream.mk.injEq] <;>
      dsimp only at * <;> omega

/-- The index read by a call of `getBuffer()` is the `mCurrentImage` it leaves. -/
theorem Lesson42.DataStream_getBuffer_index (s : Lesson42.DataStream) :
    (Lesson42.DataStream.getBuffer s).2 = (Lesson42.DataStream.getBuffer s).1.mCurrentImage :=
  rfl

/-- C29: `DataStream::getBuffer` of Lesson42 never indexes outside its 4 images: at the
array access of the `n`-th call (`n >= 1`) on the constructed object,
`0 <= mCurrentImage <= 3` and `1 <= mDelayFrames <= 4`; the index read is
`floor(n / 4) mod 4`, so it advances by one image every 4 calls and repeats with
period 16. -/
theorem Lesson42.DataStream_getBuffer_in_range (n : Nat) (hn : 1 ≤ n) :
    Lesson42.DataStream.imageOfCall n = (Lesson42.DataStream.after n).mCurrentImage ∧
    (0 ≤ (Lesson42.DataStream.after n).mCurrentImage ∧
      (Lesson42.DataStream.after n).mCurrentImage ≤ 3) ∧
    (1 ≤ (Lesson42.DataStream.after n).mDelayFrames ∧
      (Lesson42.DataStream.after n).mDelayFrames ≤ 4) ∧
    Lesson42.DataStream.imageOfCall n = ((n : Int) / 4) % 4 ∧
    Lesson42.DataStream.imageOfCall (n + 16) = Lesson42.DataStream.imageOfCall n ∧
    (∀ k : Nat, Lesson42.DataStream.imageOfCall (4 * (k + 1))
      = (Lesson42.DataStream.imageOfCall (4 * k + 3) + 1) % 4) := by
  have key : ∀ m : Nat, 1 ≤ m →
      Lesson42.DataStream.imageOfCall m = (Lesson42.DataStream.after m).mCurrentImage := by
    intro m hm
    obtain ⟨j, rfl⟩ : ∃ j, m = j + 1 := ⟨m - 1, by omega⟩
    rfl
  have idx : ∀ m : Nat, 1 ≤ m →
      Lesson42.DataStream.imageOfCall m = ((m : Int) / 4) % 4 := by
    intro m hm
    rw [key m hm, Lesson42.DataStream_after_eq]
  refine ⟨key n hn, ?_, ?_, idx n hn, ?_, ?_⟩
  · rw [Lesson42.DataStream_after_eq]
    dsimp only
    omega
  · rw [Lesson42.DataStream_after_eq]
    dsimp only
    omega
  · rw [idx n hn, idx (n + 16) (by omega)]
    push_cast
    omega
  · intro k
    rw [idx (4 * (k + 1)) (by omega), idx (4 * k + 3) (by omega)]
    push_cast
    omega

/-- C29, witness: the 4th call reads image 1 (the first three read image 0), with
`mDelayFrames` back at 4. -/
theorem Lesson42.DataStream_getBuffer_in_range_witness :
    Lesson42.DataStream.imageOfCall 3 = 0 ∧ Lesson42.DataStream.imageOfCall 4 = 1 ∧
    (Lesson42.DataStream.after 4).mDelayFrames = 4 ∧
    Lesson42.DataStream.imageOfCall 4 = ((4 : Nat) : Int) / 4 % 4 :=
  ⟨by decide, by decide, by decide,
    (Lesson42.DataStream_getBuffer_in_range 4 (by decide)).2.2.2.1⟩

/-! ### The alpha key handlers of Lesson13 -/

/-- C30: for every 8-bit alpha `a` in `0..255`, the `w` handler of Lesson13 yields
`min(a + 32, 255)` and the `s` handler yields `max(a - 32, 0)`; both results stay in
`0..255`, the `w` handler never decreases the value and the `s` handler never increases
it, and both handlers are monotone in `a`. -/
theorem Lesson13.alpha_saturates (a b : Nat) (ha : a ≤ 255) (hb : b ≤ 255) :
    (Lesson13.alphaOnW a : Int) = min ((a : Int) + 32) 255 ∧
    (Lesson13.alphaOnS a : Int) = max ((a : Int) - 32) 0 ∧
    Lesson13.alphaOnW a ≤ 255 ∧ Lesson13.alphaOnS a ≤ 255 ∧
    a ≤ Lesson13.alphaOnW a ∧ Lesson13.alphaOnS a ≤ a ∧
    (a ≤ b → Lesson13.alphaOnW a ≤ Lesson13.alphaOnW b) ∧
    (a ≤ b → Lesson13.alphaOnS a ≤ Lesson13.alphaOnS b) := by
  unfold Lesson13.alphaOnW Lesson13.alphaOnS Lesson13.UINT8_SIZE
  refine ⟨?_, ?_, ?_, ?_, ?_, ?_, ?_, ?_⟩ <;> split_ifs <;> omega

/-- C30, witness: from 240 the `w` handler gives 255, not `(240 + 32) mod 256 = 16`; from 16
the `s` handler gives 0, not `(16 - 32) mod 256 = 240`. -/
theorem Lesson13.alpha_saturates_witness :
    Lesson13.alphaOnW 240 = 255 ∧ Lesson13.alphaOnS 16 = 0 ∧
    (Lesson13.alphaOnW 240 : Int) = min (((240 : Nat) : Int) + 32) 255 :=
  ⟨by decide, by decide, (Lesson13.alpha_saturates 240 16 (by decide) (by decide)).1⟩

/-! ### `DOT_VEL` bounds the axis velocity -/

/-- One event of an alternating sequence keeps the velocity of the Dot of Lesson27 equal to
`DOT_VEL` times (right held minus left held, down held minus up held). -/
theorem Lesson27.handleEvent_tracks_keys (h : KeysHeld) (d : Lesson27.Dot) (e : SDL_Event)
    (hx : d.mVelX = Lesson27.DOT_VEL * (heldAsInt h.right - heldAsInt h.left))
    (hy : d.mVelY = Lesson27.DOT_VEL * (heldAsInt h.down - heldAsInt h.up))
    (hacc : h.accepts e = true) :
    (Lesson27.Dot.handleEvent d e).mVelX
        = Lesson27.DOT_VEL * (heldAsInt (h.next e).right - heldAsInt (h.next e).left) ∧
    (Lesson27.Dot.handleEvent d e).mVelY
        = Lesson27.DOT_VEL * (heldAsInt (h.next e).down - heldAsInt (h.next e).up) := by
  obtain ⟨ty, ⟨rep, ⟨sym⟩⟩⟩ := e
  obtain ⟨u, dn, l, r⟩ := h
  obtain ⟨px, py, vx, vy, col⟩ := d
  simp only at hx hy
  subst hx hy
  by_cases hrep : rep = 0
  · subst hrep
    cases ty <;> cases sym <;>
      simp only [KeysHeld.accepts, isDirectionKeyEvent, KeysHeld.get, KeysHeld.next,
        KeysHeld.set, Lesson27.Dot.handleEvent, Lesson27.DOT_VEL] at hacc ⊢ <;>
      simp_all [heldAsInt] <;> split_ifs <;> omega
  · cases ty <;>
      simp [KeysHeld.next, isDirectionKeyEvent, Lesson27.Dot.handleEvent, hrep]

/-- Along an alternating sequence of events the velocity of the Dot of Lesson27 stays
`DOT_VEL` times (right held minus left held, down held minus up held), for some set of
held keys. -/
theorem Lesson27.handleEvent_foldl_tracks_keys (es : List SDL_Event) :
    ∀ (h : KeysHeld) (d : Lesson27.Dot),
      d.mVelX = Lesson27.DOT_VEL * (heldAsInt h.right - heldAsInt h.left) →
      d.mVelY = Lesson27.DOT_VEL * (heldAsInt h.down - heldAsInt h.up) →
      alternatesFrom h es = true →
      ∃ h2 : KeysHeld,
        (es.foldl Lesson27.Dot.handleEvent d).mVelX
          = Lesson27.DOT_VEL * (heldAsInt h2.right - heldAsInt h2.left) ∧
        (es.foldl Lesson27.Dot.handleEvent d).mVelY
          = Lesson27.DOT_VEL * (heldAsInt h2.down - heldAsInt h2.up) := by
  induction es with
  | nil => intro h d hx hy _; exact ⟨h, hx, hy⟩
  | cons e es ih =>
    intro h d hx hy halt
    simp only [alternatesFrom, Bool.and_eq_true] at halt
    obtain ⟨hx2, hy2⟩ := Lesson27.handleEvent_tracks_keys h d e hx hy halt.1
    exact ih (h.next e) (Lesson27.Dot.handleEvent d e) hx2 hy2 halt.2

/-- The difference of two held-key indicators is -1, 0 or 1. -/
theorem heldAsInt_sub_range (a b : Bool) :
    heldAsInt a - heldAsInt b = -1 ∨ heldAsInt a - heldAsInt b = 0 ∨
      heldAsInt a - heldAsInt b = 1 := by
  cases a <;> cases b <;> simp [heldAsInt]

/-- C24: `DOT_VEL` is the maximum axis velocity of the Dot of Lesson27: starting from the
constructed Dot, after every sequence of `handleEvent` calls in which the non-repeat
key-down and key-up events of each direction key alternate beginning with key-down
(repeat events and other events interleaved freely), each of `mVelX` and `mVelY` is
`-DOT_VEL`, `0` or `DOT_VEL`. -/
theorem Lesson27.Dot_velocity_bounded (cx cy : Int) (es : List SDL_Event)
    (halt : alternatesFrom KeysHeld.none es = true) :
    ((es.foldl Lesson27.Dot.handleEvent (Lesson27.Dot.new cx cy)).mVelX = -Lesson27.DOT_VEL ∨
      (es.foldl Lesson27.Dot.handleEvent (Lesson27.Dot.new cx cy)).mVelX = 0 ∨
      (es.foldl Lesson27.Dot.handleEvent (Lesson27.Dot.new cx cy)).mVelX = Lesson27.DOT_VEL) ∧
    ((es.foldl Lesson27.Dot.handleEvent (Lesson27.Dot.new cx cy)).mVelY = -Lesson27.DOT_VEL ∨
      (es.foldl Lesson27.Dot.handleEvent (Lesson27.Dot.new cx cy)).mVelY = 0 ∨
      (es.foldl Lesson27.Dot.handleEvent (Lesson27.Dot.new cx cy)).mVelY = Lesson27.DOT_VEL) := by
  obtain ⟨h2, hx, hy⟩ := Lesson27.handleEvent_foldl_tracks_keys es KeysHeld.none
    (Lesson27.Dot.new cx cy) (by simp [Lesson27.Dot.new, KeysHeld.none])
    (by simp [Lesson27.Dot.new, KeysHeld.none]) halt
  rw [hx, hy]
  constructor
  · rcases heldAsInt_sub_range h2.right h2.left with e | e | e <;> rw [e] <;> simp
  · rcases heldAsInt_sub_range h2.down h2.up with e | e | e <;> rw [e] <;> simp

/-- C24, witness: RIGHT down, a repeat of RIGHT, UP down, RIGHT up, LEFT down: the
sequence alternates, and the velocity ends at `(-10, -10)`. -/
theorem Lesson27.Dot_velocity_bounded_witness :
    alternatesFrom KeysHeld.none
      [keyDown 0 SDL_Keycode.SDLK_RIGHT, keyDown 1 SDL_Keycode.SDLK_RIGHT,
        keyDown 0 SDL_Keycode.SDLK_UP, keyUp 0 SDL_Keycode.SDLK_RIGHT,
        keyDown 0 SDL_Keycode.SDLK_LEFT] = true ∧
    (([keyDown 0 SDL_Keycode.SDLK_RIGHT, keyDown 1 SDL_Keycode.SDLK_RIGHT,
        keyDown 0 SDL_Keycode.SDLK_UP, keyUp 0 SDL_Keycode.SDLK_RIGHT,
        keyDown 0 SDL_Keycode.SDLK_LEFT].foldl Lesson27.Dot.handleEvent
          (Lesson27.Dot.new 0 0)).mVelX = -Lesson27.DOT_VEL ∨
      ([keyDown 0 SDL_Keycode.SDLK_RIGHT, keyDown 1 SDL_Keycode.SDLK_RIGHT,
        keyDown 0 SDL_Keycode.SDLK_UP, keyUp 0 SDL_Keycode.SDLK_RIGHT,
        keyDown 0 SDL_Keycode.SDLK_LEFT].foldl Lesson27.Dot.handleEvent
          (Lesson27.Dot.new 0 0)).mVelX = 0 ∨
      ([keyDown 0 SDL_Keycode.SDLK_RIGHT, keyDown 1 SDL_Keycode.SDLK_RIGHT,
        keyDown 0 SDL_Keycode.SDLK_UP, keyUp 0 SDL_Keycode.SDLK_RIGHT,
        keyDown 0 SDL_Keycode.SDLK_LEFT].foldl Lesson27.Dot.handleEvent
          (Lesson27.Dot.new 0 0)).mVelX = Lesson27.DOT_VEL) :=
  ⟨by decide,
    (Lesson27.Dot_velocity_bounded 0 0
      [keyDown 0 SDL_Keycode.SDLK_RIGHT, keyDown 1 SDL_Keycode.SDLK_RIGHT,
        keyDown 0 SDL_Keycode.SDLK_UP, keyUp 0 SDL_Keycode.SDLK_RIGHT,
        keyDown 0 SDL_Keycode.SDLK_LEFT] (by decide)).1⟩

/-! ### The detectors in 32-bit `int` arithmetic -/

/-- A result in the range of `int` is stored unchanged. -/
theorem wrapInt_eq_self (z : Int) (hz : InInt z) : wrapInt z = z := by
  unfold InInt INT_MIN INT_MAX at hz
  unfold wrapInt
  omega

/-- An integer whose square is at most `INT_MAX` is in the range of `int`. -/
theorem InInt_of_sq_le (z : Int) (hz : z * z ≤ INT_MAX) : InInt z := by
  unfold InInt INT_MIN
  unfold INT_MAX at hz ⊢
  have h1 : z ≤ z * z := by nlinarith [sq_nonneg (z - 1), sq_nonneg z, Int.le_self_sq z]
  have h2 : -z ≤ z * z := by nlinarith [sq_nonneg (z + 1), sq_nonneg z, Int.le_self_sq (-z)]
  constructor <;> omega

/-- When the four sides are computed without overflow, the 32-bit box detector is the
detector over the mathematical integers. -/
theorem Lesson27.Int32_checkCollision_eq (a b : SDL_Rect)
    (ha : sidesFit a) (hb : sidesFit b) :
    Lesson27.Int32.checkCollision a b = Lesson27.checkCollision a b := by
  unfold Lesson27.Int32.checkCollision Lesson27.checkCollision
  rw [wrapInt_eq_self _ ha.2.1, wrapInt_eq_self _ ha.2.2, wrapInt_eq_self _ hb.2.1,
    wrapInt_eq_self _ hb.2.2]

/-- When the squared distance fits in `int`, the 32-bit `distanceSquared` is the squared
distance over the mathematical integers. -/
theorem Lesson29.Int32_distanceSquared_eq (x1 y1 x2 y2 : Int)
    (hfit : InInt ((x2 - x1) * (x2 - x1) + (y2 - y1) * (y2 - y1))) :
    Lesson29.Int32.distanceSquared x1 y1 x2 y2 = Lesson29.distanceSquared x1 y1 x2 y2 := by
  have hx0 : 0 ≤ (x2 - x1) * (x2 - x1) := mul_self_nonneg _
  have hy0 : 0 ≤ (y2 - y1) * (y2 - y1) := mul_self_nonneg _
  have hmax := hfit.2
  have hxs : InInt ((x2 - x1) * (x2 - x1)) := by
    unfold InInt INT_MIN; unfold INT_MAX at hmax ⊢; constructor <;> omega
  have hys : InInt ((y2 - y1) * (y2 - y1)) := by
    unfold InInt INT_MIN; unfold INT_MAX at hmax ⊢; constructor <;> omega
  have hx : InInt (x2 - x1) := InInt_of_sq_le _ hxs.2
  have hy : InInt (y2 - y1) := InInt_of_sq_le _ hys.2
  unfold Lesson29.Int32.distanceSquared Lesson29.distanceSquared
  simp only [wrapInt_eq_self _ hx, wrapInt_eq_self _ hy, wrapInt_eq_self _ hxs,
    wrapInt_eq_self _ hys, wrapInt_eq_self _ hfit]

/-- When no `int` operation overflows, the 32-bit circle/box detector is the detector over
the mathematical integers. -/
theorem Lesson29.Int32_checkCollision_Circle_Rect_eq (c : Lesson29.Circle) (r : SDL_Rect)
    (hw : 0 ≤ r.w) (hh : 0 ≤ r.h) (hfit : noOverflow c r) :
    Lesson29.Int32.checkCollision_Circle_Rect c r = Lesson29.checkCollision_Circle_Rect c r := by
  obtain ⟨hsides, _, hrr, hdist⟩ := hfit
  unfold Lesson29.Int32.checkCollision_Circle_Rect Lesson29.checkCollision_Circle_Rect
  simp only [wrapInt_eq_self _ hsides.2.1, wrapInt_eq_self _ hsides.2.2,
    wrapInt_eq_self _ hrr, closest_eq_clamp c.x r.x r.w hw, closest_eq_clamp c.y r.y r.h hh]
  rw [Lesson29.Int32_distanceSquared_eq]
  have e : (clamp c.x r.x (r.x + r.w) - c.x) * (clamp c.x r.x (r.x + r.w) - c.x)
      + (clamp c.y r.y (r.y + r.h) - c.y) * (clamp c.y r.y (r.y + r.h) - c.y)
      = (c.x - clamp c.x r.x (r.x + r.w)) ^ 2 + (c.y - clamp c.y r.y (r.y + r.h)) ^ 2 := by
    ring
  rw [e]
  exact hdist

/-- C2 (as amended): for rectangles of positive width and height whose sides are computed
without `int` overflow, the box detector of Lesson27, in 32-bit arithmetic, returns true
if and only if the open interiors of the two rectangles share a point with rational
coordinates. -/
theorem Lesson27.checkCollision_int32_iff_interiorsIntersect (a b : SDL_Rect)
    (haw : 0 < a.w) (hah : 0 < a.h) (hbw : 0 < b.w) (hbh : 0 < b.h)
    (hfa : sidesFit a) (hfb : sidesFit b) :
    Lesson27.Int32.checkCollision a b = true ↔ interiorsIntersect a b := by
  rw [Lesson27.Int32_checkCollision_eq a b hfa hfb]
  exact Lesson27.checkCollision_model_iff_interiorsIntersect a b haw hah hbw hbh

/-- C2, witness: the squares `(0,0,10,10)` and `(5,5,10,10)` have positive sides that fit in
`int`, and the detector agrees with the intersection of their interiors. -/
theorem Lesson27.checkCollision_int32_iff_interiorsIntersect_witness :
    (((0 : Int) < (SDL_Rect.mk 0 0 10 10).w ∧ (0 : Int) < (SDL_Rect.mk 0 0 10 10).h ∧
        (0 : Int) < (SDL_Rect.mk 5 5 10 10).w ∧ (0 : Int) < (SDL_Rect.mk 5 5 10 10).h) ∧
      sidesFit (SDL_Rect.mk 0 0 10 10) ∧ sidesFit (SDL_Rect.mk 5 5 10 10)) ∧
    (Lesson27.Int32.checkCollision (SDL_Rect.mk 0 0 10 10) (SDL_Rect.mk 5 5 10 10) = true ↔
      interiorsIntersect (SDL_Rect.mk 0 0 10 10) (SDL_Rect.mk 5 5 10 10)) :=
  ⟨by decide,
    Lesson27.checkCollision_int32_iff_interiorsIntersect (SDL_Rect.mk 0 0 10 10)
      (SDL_Rect.mk 5 5 10 10) (by decide) (by decide) (by decide) (by decide)
      (by decide) (by decide)⟩

/-- C2, counterexample: the equivalence fails for rectangles with width, height `>= 0` in two
ways. The degenerate rectangle `(5,5,0,0)` has an empty interior, yet the detector reports a
collision with `(0,0,10,10)`. And the rectangles `(2147483640,0,20,10)` and
`(2147483645,0,2,10)` share the interior point `(2147483646,5)`, yet the detector, whose
32-bit sum `a.x + a.w` overflows, reports no collision. -/
theorem Lesson27.checkCollision_int32_counterexample :
    (((0 : Int) ≤ (SDL_Rect.mk 5 5 0 0).w ∧ (0 : Int) ≤ (SDL_Rect.mk 5 5 0 0).h ∧
        (0 : Int) ≤ (SDL_Rect.mk 0 0 10 10).w ∧ (0 : Int) ≤ (SDL_Rect.mk 0 0 10 10).h) ∧
      Lesson27.Int32.checkCollision (SDL_Rect.mk 5 5 0 0) (SDL_Rect.mk 0 0 10 10) = true ∧
      ¬ interiorsIntersect (SDL_Rect.mk 5 5 0 0) (SDL_Rect.mk 0 0 10 10)) ∧
    (((0 : Int) ≤ (SDL_Rect.mk 2147483640 0 20 10).w ∧
        (0 : Int) ≤ (SDL_Rect.mk 2147483640 0 20 10).h ∧
        (0 : Int) ≤ (SDL_Rect.mk 2147483645 0 2 10).w ∧
        (0 : Int) ≤ (SDL_Rect.mk 2147483645 0 2 10).h) ∧
      Lesson27.Int32.checkCollision (SDL_Rect.mk 2147483640 0 20 10)
        (SDL_Rect.mk 2147483645 0 2 10) = false ∧
      interiorsIntersect (SDL_Rect.mk 2147483640 0 20 10) (SDL_Rect.mk 2147483645 0 2 10)) := by
  refine ⟨⟨by decide, by decide, ?_⟩, ⟨by decide, by decide, ?_⟩⟩
  · rintro ⟨px, _, ⟨hx1, hx2⟩, _, _, _⟩
    simp only [Int.cast_ofNat, Int.cast_zero, add_zero] at hx1 hx2
    exact absurd (lt_trans hx1 hx2) (lt_irrefl _)
  · refine ⟨2147483646, 5, ?_⟩
    simp only [Int.cast_ofNat, Int.cast_zero]
    norm_num

/-- C4 (as amended): for a rectangle with `w >= 0` and `h >= 0`, when no `int` operation of
the detector overflows, the circle/box detector of Lesson29, in 32-bit arithmetic, returns
true if and only if the squared distance from the centre to the centre clamped, axis by
axis, to the rectangle is less than the squared radius. -/
theorem Lesson29.checkCollision_Circle_Rect_int32_iff (c : Lesson29.Circle) (r : SDL_Rect)
    (hw : 0 ≤ r.w) (hh : 0 ≤ r.h) (hfit : noOverflow c r) :
    Lesson29.Int32.checkCollision_Circle_Rect c r = true ↔
      (c.x - clamp c.x r.x (r.x + r.w)) ^ 2 + (c.y - clamp c.y r.y (r.y + r.h)) ^ 2
        < c.r ^ 2 := by
  rw [Lesson29.Int32_checkCollision_Circle_Rect_eq c r hw hh hfit]
  exact Lesson29.checkCollision_Circle_Rect_model_iff c r hw hh

/-- C4, witness: the circle `(0,0,5)` and the rectangle `(3,0,10,10)`; nothing overflows,
the closest point is `(3,0)`, at squared distance `9 < 25`. -/
theorem Lesson29.checkCollision_Circle_Rect_int32_iff_witness :
    (((0 : Int) ≤ (SDL_Rect.mk 3 0 10 10).w ∧ (0 : Int) ≤ (SDL_Rect.mk 3 0 10 10).h) ∧
      noOverflow (Lesson29.Circle.mk 0 0 5) (SDL_Rect.mk 3 0 10 10)) ∧
    (Lesson29.Int32.checkCollision_Circle_Rect (Lesson29.Circle.mk 0 0 5)
        (SDL_Rect.mk 3 0 10 10) = true ↔
      ((0 : Int) - clamp 0 3 (3 + 10)) ^ 2 + ((0 : Int) - clamp 0 0 (0 + 10)) ^ 2
        < (5 : Int) ^ 2) :=
  ⟨by decide,
    Lesson29.checkCollision_Circle_Rect_int32_iff (Lesson29.Circle.mk 0 0 5)
      (SDL_Rect.mk 3 0 10 10) (by decide) (by decide) (by decide)⟩

/-- C4, counterexample: for the circle `(0,0,5)` and the rectangle `(50000,0,10,10)`, with
`w, h >= 0`, the clamped point `(50000,0)` is at squared distance `2500000000`, not less
than `25`; the detector's 32-bit product `50000 * 50000` is `-1794967296`, and it returns
true. -/
theorem Lesson29.checkCollision_Circle_Rect_int32_counterexample :
    ((0 : Int) ≤ (SDL_Rect.mk 50000 0 10 10).w ∧ (0 : Int) ≤ (SDL_Rect.mk 50000 0 10 10).h) ∧
    Lesson29.Int32.distanceSquared 0 0 50000 0 = -1794967296 ∧
    Lesson29.Int32.checkCollision_Circle_Rect (Lesson29.Circle.mk 0 0 5)
      (SDL_Rect.mk 50000 0 10 10) = true ∧
    ¬ (((0 : Int) - clamp 0 50000 (50000 + 10)) ^ 2 + ((0 : Int) - clamp 0 0 (0 + 10)) ^ 2
        < (5 : Int) ^ 2) := by
  decide

/-- C5 (as amended): when the centre of the circle lies inside the rectangle, the radius is
positive and no `int` operation of the detector overflows, the circle/box detector of
Lesson29, in 32-bit arithmetic, returns true. -/
theorem Lesson29.checkCollision_Circle_Rect_int32_centre_inside (c : Lesson29.Circle)
    (r : SDL_Rect) (hr : 0 < c.r) (hin : centreInside c r) (hfit : noOverflow c r) :
    Lesson29.Int32.checkCollision_Circle_Rect c r = true := by
  have hw : 0 ≤ r.w := by
    obtain ⟨⟨h1, h2⟩, _⟩ := hin
    omega
  have hh : 0 ≤ r.h := by
    obtain ⟨_, ⟨h1, h2⟩⟩ := hin
    omega
  rw [Lesson29.Int32_checkCollision_Circle_Rect_eq c r hw hh hfit]
  exact Lesson29.checkCollision_Circle_Rect_model_centre_inside c r hr hin

/-- C5, witness: the circle `(5,5,1)` sits inside the rectangle `(0,0,10,10)`, nothing
overflows, and the detector returns true. -/
theorem Lesson29.checkCollision_Circle_Rect_int32_centre_inside_witness :
    ((0 : Int) < (Lesson29.Circle.mk 5 5 1).r ∧
      centreInside (Lesson29.Circle.mk 5 5 1) (SDL_Rect.mk 0 0 10 10) ∧
      noOverflow (Lesson29.Circle.mk 5 5 1) (SDL_Rect.mk 0 0 10 10)) ∧
    Lesson29.Int32.checkCollision_Circle_Rect (Lesson29.Circle.mk 5 5 1)
      (SDL_Rect.mk 0 0 10 10) = true :=
  ⟨by decide,
    Lesson29.checkCollision_Circle_Rect_int32_centre_inside (Lesson29.Circle.mk 5 5 1)
      (SDL_Rect.mk 0 0 10 10) (by decide) (by decide) (by decide)⟩

/-- C5, counterexample: with the centre inside the rectangle `(0,0,10,10)` the detector
returns false for the radius `0`, where the strict test `0 < 0` fails, and for the radius
`65536 >= 0`, whose 32-bit square `65536 * 65536` is `0`. -/
theorem Lesson29.checkCollision_Circle_Rect_int32_radius_counterexample :
    (((0 : Int) ≤ (Lesson29.Circle.mk 5 5 0).r ∧
        (0 : Int) ≤ (SDL_Rect.mk 0 0 10 10).w ∧ (0 : Int) ≤ (SDL_Rect.mk 0 0 10 10).h ∧
        centreInside (Lesson29.Circle.mk 5 5 0) (SDL_Rect.mk 0 0 10 10)) ∧
      Lesson29.Int32.checkCollision_Circle_Rect (Lesson29.Circle.mk 5 5 0)
        (SDL_Rect.mk 0 0 10 10) = false) ∧
    (((0 : Int) ≤ (Lesson29.Circle.mk 5 5 65536).r ∧
        centreInside (Lesson29.Circle.mk 5 5 65536) (SDL_Rect.mk 0 0 10 10)) ∧
      wrapInt (65536 * 65536) = 0 ∧
      Lesson29.Int32.checkCollision_Circle_Rect (Lesson29.Circle.mk 5 5 65536)
        (SDL_Rect.mk 0 0 10 10) = false) := by
  decide

/-- C28 (as amended): for a rectangle with `w >= 0` and `h >= 0`, when no `int` operation of
the detector overflows, the circle/box detector of Lesson29, in 32-bit arithmetic, returns
true if and only if some integer point `(px, py)` of the box, `r.x <= px <= r.x + r.w` and
`r.y <= py <= r.y + r.h`, satisfies `(px - c.x)^2 + (py - c.y)^2 < c.r^2`. -/
theorem Lesson29.checkCollision_Circle_Rect_int32_iff_exists_point (c : Lesson29.Circle)
    (r : SDL_Rect) (hw : 0 ≤ r.w) (hh : 0 ≤ r.h) (hfit : noOverflow c r) :
    Lesson29.Int32.checkCollision_Circle_Rect c r = true ↔
      ∃ px py : Int, (r.x ≤ px ∧ px ≤ r.x + r.w) ∧ (r.y ≤ py ∧ py ≤ r.y + r.h) ∧
        (px - c.x) ^ 2 + (py - c.y) ^ 2 < c.r ^ 2 := by
  rw [Lesson29.Int32_checkCollision_Circle_Rect_eq c r hw hh hfit]
  exact Lesson29.checkCollision_Circle_Rect_model_iff_exists_point c r hw hh

/-- C28, witness: the circle `(0,0,5)` and the rectangle `(3,0,10,10)`: nothing overflows,
and the detector agrees with the existence of a box point inside the circle. -/
theorem Lesson29.checkCollision_Circle_Rect_int32_iff_exists_point_witness :
    (((0 : Int) ≤ (SDL_Rect.mk 3 0 10 10).w ∧ (0 : Int) ≤ (SDL_Rect.mk 3 0 10 10).h) ∧
      noOverflow ⟨0, 0, 5⟩ (SDL_Rect.mk 3 0 10 10)) ∧
    (Lesson29.Int32.checkCollision_Circle_Rect ⟨0, 0, 5⟩ (SDL_Rect.mk 3 0 10 10) = true ↔
      ∃ px py : Int, ((3 : Int) ≤ px ∧ px ≤ 3 + 10) ∧ ((0 : Int) ≤ py ∧ py ≤ 0 + 10) ∧
        (px - 0) ^ 2 + (py - 0) ^ 2 < (5 : Int) ^ 2) :=
  ⟨by decide,
    Lesson29.checkCollision_Circle_Rect_int32_iff_exists_point ⟨0, 0, 5⟩
      (SDL_Rect.mk 3 0 10 10) (by decide) (by decide) (by decide)⟩

/-- C28, counterexample: for the circle `(0,0,5)` and the rectangle `(50000,0,10,10)`, with
`w, h >= 0`, no point of the box is within distance 5 of the centre, yet the detector, whose
32-bit product `50000 * 50000` is negative, returns true. -/
theorem Lesson29.checkCollision_Circle_Rect_int32_no_point_counterexample :
    ((0 : Int) ≤ (SDL_Rect.mk 50000 0 10 10).w ∧ (0 : Int) ≤ (SDL_Rect.mk 50000 0 10 10).h) ∧
    Lesson29.Int32.checkCollision_Circle_Rect ⟨0, 0, 5⟩ (SDL_Rect.mk 50000 0 10 10) = true ∧
    ¬ ∃ px py : Int, ((50000 : Int) ≤ px ∧ px ≤ 50000 + 10) ∧
        ((0 : Int) ≤ py ∧ py ≤ 0 + 10) ∧ (px - 0) ^ 2 + (py - 0) ^ 2 < (5 : Int) ^ 2 := by
  refine ⟨by decide, by decide, ?_⟩
  rintro ⟨px, py, ⟨hx0, _⟩, _, hlt⟩
  have h1 : (50000 : Int) * 50000 ≤ px * px := by nlinarith
  have h2 : 0 ≤ (py - 0) ^ 2 := sq_nonneg _
  have h3 : (px - 0) ^ 2 = px * px := by ring
  rw [h3] at hlt
  norm_num at hlt
  nlinarith

/-- When the radius sum, its square and the squared centre distance fit in `int`, the 32-bit
circle/circle detector is the detector over the mathematical integers. -/
theorem Lesson29.Int32_checkCollision_Circle_Circle_eq (a b : Lesson29.Circle)
    (hsum : InInt (a.r + b.r)) (hsq : InInt ((a.r + b.r) * (a.r + b.r)))
    (hdist : InInt ((b.x - a.x) * (b.x - a.x) + (b.y - a.y) * (b.y - a.y))) :
    Lesson29.Int32.checkCollision_Circle_Circle a b
      = Lesson29.checkCollision_Circle_Circle a b := by
  unfold Lesson29.Int32.checkCollision_Circle_Circle Lesson29.checkCollision_Circle_Circle
  simp only [wrapInt_eq_self _ hsum, wrapInt_eq_self _ hsq,
    Lesson29.Int32_distanceSquared_eq a.x a.y b.x b.y hdist]
